import Mathlib

/-
Verification of the pengine reasoning pipeline
(src/core/intelligence: detector.py, reasoning.py, narrator.py, analyzer.py).

The embedding models Python scalar values, data rows (dicts), and the
fallible operations of the source (float conversion, arithmetic that can
divide by zero, string formatting of None) with an Except monad whose
error type mirrors the Python exception classes that can escape.
Rational numbers stand in for Python floats; square roots are taken by a
monotone rational approximation exact to six decimal places (exact on all
inputs used by the concrete theorems below).
-/

namespace PEngine

/-- Python exception classes that can escape the embedded functions. -/
inductive PyErr where
  | typeError
  | valueError
  | zeroDivisionError
deriving DecidableEq, Repr

/-- Python scalar values that appear in data rows and insight fields.
Integers and floats are kept apart because str() renders them differently. -/
inductive PyVal where
  | int (n : ℤ)
  | float (q : ℚ)
  | str (s : String)
  | none
deriving DecidableEq, Repr

/-- Python truthiness of a scalar. -/
def PyVal.truthy : PyVal → Bool
  | .int n => n ≠ 0
  | .float q => q ≠ 0
  | .str s => s ≠ ""
  | .none => false

/-- Is this value numeric (int or float)? -/
def PyVal.isNum : PyVal → Bool
  | .int _ => true
  | .float _ => true
  | _ => false

/-- Is this value a string? -/
def PyVal.isStr : PyVal → Bool
  | .str _ => true
  | _ => false

/-- Numeric content of a value, 0 for non-numbers (used only under isNum guards). -/
def PyVal.toRat : PyVal → ℚ
  | .int n => (n : ℚ)
  | .float q => q
  | _ => 0

/-!
Arithmetic wrappers.  The Batteries implementations of rational addition,
subtraction, multiplication, inversion and scientific literals are marked
irreducible, which stops concrete evaluation inside proofs; the wrappers
below compute the same values through mkRat (kept reducible) and are
proved equal to the standard operations in the lemma section, so all
algebraic reasoning still happens with the Mathlib operations.
-/

/-- Rational addition through mkRat. -/
def qAdd (a b : ℚ) : ℚ :=
  mkRat (a.num * b.den + b.num * a.den) (a.den * b.den)

/-- Rational negation through mkRat. -/
def qNeg (a : ℚ) : ℚ :=
  mkRat (-a.num) a.den

/-- Rational subtraction through mkRat. -/
def qSub (a b : ℚ) : ℚ :=
  qAdd a (qNeg b)

/-- Rational multiplication through mkRat. -/
def qMul (a b : ℚ) : ℚ :=
  mkRat (a.num * b.num) (a.den * b.den)

/-- Rational inverse through mkRat (0 maps to 0). -/
def qInv (a : ℚ) : ℚ :=
  if 0 ≤ a.num then mkRat (a.den : ℤ) a.num.natAbs
  else mkRat (-(a.den : ℤ)) a.num.natAbs

/-- Rational division through mkRat (division by 0 gives 0). -/
def qDiv (a b : ℚ) : ℚ :=
  qMul a (qInv b)

/-- Rational absolute value. -/
def qAbs (a : ℚ) : ℚ :=
  if a < 0 then qNeg a else a

/-- Rational minimum. -/
def qMin (a b : ℚ) : ℚ :=
  if a ≤ b then a else b

/-- Rational maximum. -/
def qMax (a b : ℚ) : ℚ :=
  if a ≤ b then b else a

/-- Rational power by a natural exponent. -/
def qPow (a : ℚ) : ℕ → ℚ
  | 0 => 1
  | n + 1 => qMul (qPow a n) a

/-- Sum of a list of rationals. -/
def qSum (l : List ℚ) : ℚ :=
  l.foldr qAdd 0

/-- Round to the nearest integer, halves away from zero upward, as the
Mathlib round function. -/
def qRound (a : ℚ) : ℤ :=
  (qAdd a (mkRat 1 2)).floor

/-- Newton iteration for the integer square root, with explicit fuel so
that the kernel can evaluate it; the guess strictly decreases every step,
so fuel n is always enough and the result agrees with Nat.sqrt. -/
def isqrtGo (n : ℕ) : ℕ → ℕ → ℕ
  | 0, guess => guess
  | fuel + 1, guess =>
    let next := (guess + n / guess) / 2
    if next < guess then isqrtGo n fuel next else guess

/-- Integer square root (the floor of the real root). -/
def isqrt (n : ℕ) : ℕ :=
  if n ≤ 1 then n else isqrtGo n n (n / 2)

/-- Value of a decimal digit character. -/
def charDigit? (c : Char) : Option Nat :=
  if c.isDigit then some (c.toNat - 48) else Option.none

/-- Interpret a list of digit characters as a natural number (empty list gives 0). -/
def digitsVal (cs : List Char) : Option Nat :=
  cs.foldl
    (fun acc c =>
      match acc, charDigit? c with
      | some n, some d => some (n * 10 + d)
      | _, _ => Option.none)
    (some 0)

/-- Parse an unsigned decimal numeral, with an optional single dot
(models the grammar accepted by float() for plain decimals). -/
def parseUnsigned (cs : List Char) : Option ℚ :=
  let ip := cs.takeWhile (fun c => c ≠ '.')
  let rest := cs.dropWhile (fun c => c ≠ '.')
  match rest with
  | [] =>
    if ip.isEmpty then Option.none
    else (digitsVal ip).map (fun n => (n : ℚ))
  | _ :: fp =>
    if fp.any (fun c => c = '.') then Option.none
    else if ip.isEmpty && fp.isEmpty then Option.none
    else
      match digitsVal ip, digitsVal fp with
      | some n, some m => some (qAdd (n : ℚ) (qDiv (m : ℚ) (qPow 10 fp.length)))
      | _, _ => Option.none

/-- Python float(str) on plain decimal strings (exponents and special
values are never fed to it by this codebase). -/
def pyParseFloat (s : String) : Option ℚ :=
  match s.data with
  | [] => Option.none
  | '+' :: rest => parseUnsigned rest
  | '-' :: rest => (parseUnsigned rest).map Neg.neg
  | cs => parseUnsigned cs

/-- Python float(x) on a scalar: numbers convert, strings parse or raise
ValueError, None raises TypeError. -/
def pyFloat : PyVal → Except PyErr ℚ
  | .int n => .ok (n : ℚ)
  | .float q => .ok q
  | .str s =>
    match pyParseFloat s with
    | some q => .ok q
    | Option.none => .error .valueError
  | .none => .error .typeError

/-- The ok value of a float conversion, 0 when it raises (used only in
theorem statements under hypotheses that the conversion succeeds). -/
def pyFloatD (v : PyVal) : ℚ :=
  match pyFloat v with
  | .ok q => q
  | .error _ => 0

/-- Did an Except computation succeed? -/
def Except.isOk {ε α : Type} : Except ε α → Bool
  | .ok _ => true
  | .error _ => false

instance {ε α : Type} [DecidableEq ε] [DecidableEq α] : DecidableEq (Except ε α) := by
  intro x y
  cases x with
  | ok a =>
    cases y with
    | ok b =>
      exact if h : a = b then isTrue (by rw [h]) else
        isFalse (by intro hh; injection hh; contradiction)
    | error b => exact isFalse (by intro hh; exact Except.noConfusion hh)
  | error a =>
    cases y with
    | ok b => exact isFalse (by intro hh; exact Except.noConfusion hh)
    | error b =>
      exact if h : a = b then isTrue (by rw [h]) else
        isFalse (by intro hh; injection hh; contradiction)

/-- A data row: a Python dict from column name to scalar, in insertion order. -/
def Row := List (String × PyVal)
deriving DecidableEq, Repr

/-- row.get(key): the first binding of the key, if any. -/
def rowGet (r : Row) (k : String) : Option PyVal :=
  (List.find? (fun p => p.1 = k) r).map (fun p => p.2)

/-- row.get(key, default). -/
def rowGetD (r : Row) (k : String) (d : PyVal) : PyVal :=
  (rowGet r k).getD d

/-- key in row. -/
def hasKey (r : Row) (k : String) : Bool :=
  (rowGet r k).isSome

/-- Stable insertion of an element into a list sorted by the reflexive
comparison le: the element goes before the first entry it compares le to,
hence after all earlier-listed equals. -/
def insertLe {α : Type} (le : α → α → Bool) (a : α) : List α → List α
  | [] => [a]
  | b :: l => if le a b then a :: b :: l else b :: insertLe le a l

/-- Stable sort by a reflexive, total boolean comparison.  Agrees with the
stable mergesort used by sorted() in Python: a stable sorted permutation
is unique, so any stable sorting algorithm is a faithful model. -/
def sortLe {α : Type} (le : α → α → Bool) : List α → List α
  | [] => []
  | a :: l => insertLe le a (sortLe le l)

/-- Lexicographic string order as used by Python string comparison. -/
def strLe (s t : String) : Bool :=
  !(decide (t < s))

/-- The sort key used by trend detection: x.get(time_col, 0). -/
def timeKey (tc : String) (r : Row) : PyVal :=
  rowGetD r tc (.int 0)

/-- sorted(data, key=lambda x: x.get(time_col, 0)) inside try/except.
Keys of one numeric type sort by value, all-string keys sort
lexicographically; any other mixture makes a comparison raise TypeError,
which the source catches by keeping the unsorted list. -/
def pySortByTime (tc : String) (data : List Row) : List Row :=
  if data.all (fun r => (timeKey tc r).isNum) then
    sortLe (fun a b => (timeKey tc a).toRat ≤ (timeKey tc b).toRat) data
  else if data.all (fun r => (timeKey tc r).isStr) then
    sortLe
      (fun a b =>
        match timeKey tc a, timeKey tc b with
        | .str sa, .str sb => strLe sa sb
        | _, _ => true)
      data
  else data

/-- Python a > b on scalars: numeric pairs compare by value, string pairs
lexicographically, any other pair raises TypeError. -/
def pyGt (a b : PyVal) : Except PyErr Bool :=
  if a.isNum && b.isNum then .ok (decide (b.toRat < a.toRat))
  else
    match a, b with
    | .str sa, .str sb => .ok (decide (sb < sa))
    | _, _ => .error .typeError

/-- round(q, 2) — round to two decimal places (Python rounds half to even,
which differs only at exact ties; no tie occurs in this development). -/
def round2 (q : ℚ) : ℚ :=
  qDiv ((qRound (qMul q 100) : ℤ) : ℚ) 100

/-- Render a natural number in decimal. -/
def natStr (n : ℕ) : String :=
  toString n

/-- Render an integer in decimal. -/
def intStr (n : ℤ) : String :=
  (if n < 0 then "-" else "") ++ natStr n.natAbs

/-- Python format spec .1f: one digit after the decimal point. -/
def fmtFixed1 (q : ℚ) : String :=
  let m : ℤ := qRound (qMul q 10)
  (if m < 0 then "-" else "") ++ natStr (m.natAbs / 10) ++ "." ++ natStr (m.natAbs % 10)

/-- Python format spec +.1f: as .1f with an explicit sign. -/
def fmtSigned1 (q : ℚ) : String :=
  let m : ℤ := qRound (qMul q 10)
  (if m < 0 then "-" else "+") ++ natStr (m.natAbs / 10) ++ "." ++ natStr (m.natAbs % 10)

/-- Strip trailing zero characters. -/
def stripZeros (cs : List Char) : List Char :=
  (cs.reverse.dropWhile (fun c => c = '0')).reverse

/-- Decimal rendering of a float value: integer part, then up to twelve
fractional digits with trailing zeros removed (approximates repr of a
Python float; no theorem below inspects these characters). -/
def fmtFloat (q : ℚ) : String :=
  let sign := if q < 0 then "-" else ""
  let a : ℚ := qAbs q
  let ip : ℕ := a.floor.toNat
  let frac : ℕ := (qMul (qSub a ((a.floor : ℤ) : ℚ)) (qPow 10 12)).floor.toNat
  let fracDigits :=
    stripZeros ((natStr (10 ^ 12 + frac)).data.drop 1)
  sign ++ natStr ip ++ "." ++
    (if fracDigits.isEmpty then "0" else String.mk fracDigits)

/-- Python str(x) on a scalar. -/
def pyStr : PyVal → String
  | .int n => intStr n
  | .float q => fmtFloat q
  | .str s => s
  | .none => "None"

/-- str.lower(). -/
def pyLower (s : String) : String :=
  String.mk (s.data.map Char.toLower)

/-- str.title(): alphabetic characters that follow a non-alphabetic one are
upper-cased, the remaining alphabetic characters lower-cased. -/
def pyTitleCore : Bool → List Char → List Char
  | _, [] => []
  | prevAlpha, c :: cs =>
    if c.isAlpha then
      (if prevAlpha then c.toLower else c.toUpper) :: pyTitleCore true cs
    else c :: pyTitleCore false cs

/-- str.title() on a string. -/
def pyTitle (s : String) : String :=
  String.mk (pyTitleCore false s.data)

/-- metric.replace(underscore, space). -/
def pyUnderscoreToSpace (s : String) : String :=
  String.mk (s.data.map (fun c => if c = '_' then ' ' else c))

/-- Does the first character list lead the second one? -/
def leadsWith : List Char → List Char → Bool
  | [], _ => true
  | _ :: _, [] => false
  | a :: as, b :: bs => a = b && leadsWith as bs

/-- Does the first character list occur contiguously inside the second? -/
def occursIn (needle : List Char) : List Char → Bool
  | [] => leadsWith needle []
  | c :: cs => leadsWith needle (c :: cs) || occursIn needle cs

/-- Substring containment, pat in s. -/
def strContains (s pat : String) : Bool :=
  occursIn pat.data s.data

/-- Python truthiness of an optional string argument (None and the empty
string are falsy). -/
def strOptTruthy : Option String → Bool
  | some s => s ≠ ""
  | Option.none => false

/-- Monotone rational square root, rounded down to six decimal places;
exact whenever the true root has at most six decimal places.  Models the
float square root inside statistics.stdev. -/
def ratSqrt (q : ℚ) : ℚ :=
  if q ≤ 0 then 0
  else qDiv (isqrt ((qMul q (qPow 10 12)).floor.toNat) : ℚ) (qPow 10 6)

/-- statistics.mean of a list of rationals (0 on the empty list, which the
source never reaches). -/
def listMean (l : List ℚ) : ℚ :=
  qDiv (qSum l) (l.length : ℚ)

/-- statistics.median: middle of the sorted values, or the average of the
two middle values for an even count. -/
def listMedian (l : List ℚ) : ℚ :=
  let s := sortLe (fun a b => decide (a ≤ b)) l
  if l.length % 2 = 1 then s.getD (l.length / 2) 0
  else qDiv (qAdd (s.getD (l.length / 2 - 1) 0) (s.getD (l.length / 2) 0)) 2

/-- statistics.stdev: square root of the sample variance (denominator n-1). -/
def listStdev (l : List ℚ) : ℚ :=
  let m := listMean l
  ratSqrt (qDiv (qSum (l.map (fun x => qPow (qSub x m) 2))) (qSub (l.length : ℚ) 1))

/-- detector.py InsightType. -/
inductive InsightType where
  | growth
  | decline
  | comparison
  | ranking
  | distribution
  | correlation
  | anomaly
  | threshold
  | stability
deriving DecidableEq, Repr

/-- The string value of an InsightType member. -/
def InsightType.value : InsightType → String
  | .growth => "growth"
  | .decline => "decline"
  | .comparison => "comparison"
  | .ranking => "ranking"
  | .distribution => "distribution"
  | .correlation => "correlation"
  | .anomaly => "anomaly"
  | .threshold => "threshold"
  | .stability => "stability"

/-- detector.py Sentiment. -/
inductive Sentiment where
  | positive
  | negative
  | neutral
  | warning
deriving DecidableEq, Repr

/-- The string value of a Sentiment member. -/
def Sentiment.value : Sentiment → String
  | .positive => "positive"
  | .negative => "negative"
  | .neutral => "neutral"
  | .warning => "warning"

/-- detector.py DetectedInsight, with the dataclass defaults. -/
structure DetectedInsight where
  insight_type : InsightType
  summary : String
  metric_name : String
  current_value : PyVal
  previous_value : PyVal := .none
  change_absolute : Option ℚ := Option.none
  change_percentage : Option ℚ := Option.none
  direction : String := "stable"
  magnitude : String := "moderate"
  velocity : String := "gradual"
  human_impact : String := ""
  sentiment : Sentiment := .neutral
  recommended_template : String := "hero_stat"
  confidence : ℚ := mkRat 4 5
  data_points : List Row := []
  time_range : Option (PyVal × PyVal) := Option.none
deriving DecidableEq, Repr

/-- detector.py POSITIVE_METRICS. -/
def POSITIVE_METRICS : List String :=
  ["literacy", "enrollment", "growth", "income", "revenue",
   "vaccination", "employment", "forest_cover", "life_expectancy"]

/-- detector.py NEGATIVE_METRICS. -/
def NEGATIVE_METRICS : List String :=
  ["dropout", "mortality", "crime", "pollution", "unemployment",
   "poverty", "disease", "deaths", "decline"]

/-- InsightDetector._determine_sentiment. -/
def determine_sentiment (metric direction : String) : Sentiment :=
  let metricLower := pyLower metric
  let isPositiveMetric := POSITIVE_METRICS.any (fun p => strContains metricLower p)
  let isNegativeMetric := NEGATIVE_METRICS.any (fun n => strContains metricLower n)
  if direction = "up" then
    if isPositiveMetric then .positive
    else if isNegativeMetric then .negative
    else .neutral
  else if direction = "down" then
    if isPositiveMetric then .negative
    else if isNegativeMetric then .positive
    else .neutral
  else .neutral

/-- InsightDetector._generate_human_impact. -/
def generate_human_impact (metric direction magnitude : String) (changePct : ℚ) : String :=
  let metricClean := pyTitle (pyUnderscoreToSpace metric)
  let magnitudeWord :=
    if magnitude = "small" then "slightly"
    else if magnitude = "moderate" then "noticeably"
    else if magnitude = "large" then "significantly"
    else if magnitude = "dramatic" then "dramatically"
    else ""
  let isPos := POSITIVE_METRICS.any (fun p => strContains (pyLower metric) p)
  let directionWord :=
    if direction = "up" then (if isPos then "improved" else "increased")
    else if direction = "down" then (if isPos then "declined" else "decreased")
    else if direction = "stable" then "remained stable"
    else "changed"
  metricClean ++ " has " ++ magnitudeWord ++ " " ++ directionWord ++ " by " ++
    fmtFixed1 (qAbs changePct) ++ "%"

/-- InsightDetector._select_template (the magnitude argument is unused in
the source as well). -/
def select_template (t : InsightType) (_magnitude : String) (dataPoints : ℕ) : String :=
  match t with
  | .growth => if dataPoints > 3 then "trend_line" else "hero_stat"
  | .decline => if dataPoints > 3 then "trend_line" else "hero_stat"
  | .comparison => "versus"
  | .ranking => "ranking_bar"
  | .distribution => "pie_breakdown"
  | .correlation => "trend_line"
  | .anomaly => "hero_stat"
  | .threshold => "hero_stat"
  | .stability => "hero_stat"

/-- InsightDetector._build_trend_summary. -/
def build_trend_summary (metric direction : String) (changePct : ℚ)
    (timeRange : PyVal × PyVal) : String :=
  let metricClean := pyTitle (pyUnderscoreToSpace metric)
  let verb :=
    if direction = "up" then "increased"
    else if direction = "down" then "decreased"
    else "remained stable"
  metricClean ++ " " ++ verb ++ " by " ++ fmtFixed1 (qAbs changePct) ++ "% from " ++
    pyStr timeRange.1 ++ " to " ++ pyStr timeRange.2

/-- The velocity block of _detect_trends: the float conversion of the
middle row is NOT wrapped in try/except in the source, so it can raise. -/
def trendVelocity (sortedData : List Row) (metricCol : String) (firstVal lastVal : ℚ) :
    Except PyErr String :=
  if 3 ≤ sortedData.length then do
    let midRow := sortedData.getD (sortedData.length / 2) []
    let midVal ← pyFloat (rowGetD midRow metricCol (.float firstVal))
    let firstHalfChange := qAbs (qSub midVal firstVal)
    let secondHalfChange := qAbs (qSub lastVal midVal)
    pure
      (if secondHalfChange > qMul firstHalfChange (mkRat 3 2) then "accelerating"
       else if firstHalfChange > qMul secondHalfChange (mkRat 3 2) then "decelerating"
       else "steady")
  else pure "gradual"

/-- The insight built at the end of _detect_trends (first and last value
already extracted, velocity already determined). -/
def mkTrendInsight (sortedData : List Row) (metricCol timeCol : String)
    (firstVal lastVal : ℚ) (velocity : String) : DetectedInsight :=
  let changeAbs := qSub lastVal firstVal
  let changePct := qMul (qDiv changeAbs firstVal) 100
  let insightType :=
    if changePct > 2 then InsightType.growth
    else if changePct < -2 then InsightType.decline
    else InsightType.stability
  let direction :=
    if changePct > 2 then "up"
    else if changePct < -2 then "down"
    else "stable"
  let absPct := qAbs changePct
  let magnitude :=
    if absPct < 5 then "small"
    else if absPct < 15 then "moderate"
    else if absPct < 30 then "large"
    else "dramatic"
  let sentiment := determine_sentiment metricCol direction
  let humanImpact := generate_human_impact metricCol direction magnitude changePct
  let template := select_template insightType magnitude sortedData.length
  let timeRange :=
    ((rowGet (sortedData.headD []) timeCol).getD .none,
     (rowGet (sortedData.getLastD []) timeCol).getD .none)
  { insight_type := insightType,
    summary := build_trend_summary metricCol direction changePct timeRange,
    metric_name := metricCol,
    current_value := .float lastVal,
    previous_value := .float firstVal,
    change_absolute := some (round2 changeAbs),
    change_percentage := some (round2 changePct),
    direction := direction,
    magnitude := magnitude,
    velocity := velocity,
    human_impact := humanImpact,
    sentiment := sentiment,
    recommended_template := template,
    confidence := mkRat 17 20,
    data_points := sortedData,
    time_range := some timeRange }

/-- InsightDetector._detect_trends. -/
def detect_trends (data : List Row) (metricCol timeCol : String) :
    Except PyErr (List DetectedInsight) :=
  let sortedData := pySortByTime timeCol data
  if sortedData.length < 2 then .ok []
  else
    match pyFloat (rowGetD (sortedData.headD []) metricCol (.int 0)),
          pyFloat (rowGetD (sortedData.getLastD []) metricCol (.int 0)) with
    | .ok firstVal, .ok lastVal =>
      if firstVal = 0 then .ok []
      else
        (trendVelocity sortedData metricCol firstVal lastVal).map
          (fun velocity => [mkTrendInsight sortedData metricCol timeCol firstVal lastVal velocity])
    | _, _ => .ok []

/-- The first metric value of the time-sorted rows (spec: "first"). -/
def trendFirstVal (data : List Row) (m tc : String) : ℚ :=
  pyFloatD (rowGetD ((pySortByTime tc data).headD []) m (.int 0))

/-- The last metric value of the time-sorted rows (spec: "last"). -/
def trendLastVal (data : List Row) (m tc : String) : ℚ :=
  pyFloatD (rowGetD ((pySortByTime tc data).getLastD []) m (.int 0))

/-- The spec formula change_pct = (last - first) / first * 100 over the
time-sorted rows. -/
def trendChangePct (data : List Row) (m tc : String) : ℚ :=
  (trendLastVal data m tc - trendFirstVal data m tc) / trendFirstVal data m tc * 100

/-- Lookup in the insertion-ordered group_values dict. -/
def alFind (gv : List (PyVal × ℚ × PyVal)) (g : PyVal) : Option (ℚ × PyVal) :=
  (List.find? (fun p => p.1 = g) gv).map (fun p => p.2)

/-- Update of the insertion-ordered group_values dict: an existing key
keeps its position, a new key is appended. -/
def alSet (gv : List (PyVal × ℚ × PyVal)) (g : PyVal) (v : ℚ × PyVal) :
    List (PyVal × ℚ × PyVal) :=
  if (alFind gv g).isSome then gv.map (fun p => if p.1 = g then (g, v) else p)
  else gv ++ [(g, v)]

/-- The accumulation loop of _detect_comparisons.  The float conversion is
wrapped in a bare except in the source (skip the row), but the time
comparison is not, so a mixed-type comparison raises TypeError. -/
def groupValuesLoop (metricCol groupCol : String) (timeCol : Option String) :
    List Row → List (PyVal × ℚ × PyVal) → Except PyErr (List (PyVal × ℚ × PyVal))
  | [], gv => .ok gv
  | row :: rest, gv =>
    let g := rowGetD row groupCol .none
    if !g.truthy then groupValuesLoop metricCol groupCol timeCol rest gv
    else
      match pyFloat (rowGetD row metricCol (.int 0)) with
      | .error _ => groupValuesLoop metricCol groupCol timeCol rest gv
      | .ok value =>
        if strOptTruthy timeCol then
          let tc := timeCol.getD ""
          let timeVal := rowGetD row tc (.int 0)
          match alFind gv g with
          | Option.none =>
            groupValuesLoop metricCol groupCol timeCol rest (alSet gv g (value, timeVal))
          | some prev => do
            let gt ← pyGt timeVal prev.2
            groupValuesLoop metricCol groupCol timeCol rest
              (if gt then alSet gv g (value, timeVal) else gv)
        else groupValuesLoop metricCol groupCol timeCol rest (alSet gv g (value, .int 0))

/-- InsightDetector._detect_comparisons. -/
def detect_comparisons (data : List Row) (metricCol groupCol : String)
    (timeCol : Option String) : Except PyErr (List DetectedInsight) := do
  let gv ← groupValuesLoop metricCol groupCol timeCol data []
  if gv.length < 2 then return []
  let pairs := gv.map (fun p => (p.1, p.2.1))
  let sortedGroups := sortLe (fun a b => decide (b.2 ≤ a.2)) pairs
  match sortedGroups with
  | [] => return []
  | top :: _ =>
    let bottom := sortedGroups.getLastD top
    let topVal := top.2
    let bottomVal := bottom.2
    let rankingSummary :=
      pyStr top.1 ++ " leads with " ++ metricCol ++ " at " ++ fmtFixed1 topVal ++
        ", while " ++ pyStr bottom.1 ++ " trails at " ++ fmtFixed1 bottomVal
    return [{ insight_type := .ranking,
              summary := rankingSummary,
              metric_name := metricCol,
              current_value := .float topVal,
              previous_value := .float bottomVal,
              change_absolute := some (round2 (qSub topVal bottomVal)),
              change_percentage :=
                some (round2
                  (if bottomVal ≠ 0 then qMul (qDiv (qSub topVal bottomVal) bottomVal) 100 else 0)),
              direction := "comparison",
              magnitude :=
                if qDiv (qSub topVal bottomVal) (qMax bottomVal 1) > mkRat 1 5 then "large"
                else "moderate",
              human_impact :=
                "Gap between best and worst performers is " ++ fmtFixed1 (qSub topVal bottomVal) ++
                  " points",
              sentiment := .neutral,
              recommended_template := "ranking_bar",
              confidence := mkRat 9 10,
              data_points := sortedGroups.map (fun p => [("group", p.1), ("value", .float p.2)]) }]

/-- The numeric values of the metric column, skipping rows whose value
does not convert (bare except in the source). -/
def numericValues (data : List Row) (metricCol : String) : List ℚ :=
  data.filterMap (fun row =>
    match pyFloat (rowGetD row metricCol (.int 0)) with
    | .ok q => some q
    | .error _ => Option.none)

/-- InsightDetector._detect_distribution. -/
def detect_distribution (data : List Row) (metricCol : String) : Option DetectedInsight :=
  let values := numericValues data metricCol
  if values.length < 3 then Option.none
  else
    let meanVal := listMean values
    let medianVal := listMedian values
    let stdev := if values.length > 1 then listStdev values else 0
    let skewIndicator := if stdev > 0 then qDiv (qSub meanVal medianVal) stdev else 0
    let distributionType := if qAbs skewIndicator > mkRat 1 2 then "skewed" else "balanced"
    some
      { insight_type := .distribution,
        summary :=
          metricCol ++ " has a " ++ distributionType ++ " distribution with average " ++
            fmtFixed1 meanVal ++ " (median: " ++ fmtFixed1 medianVal ++ ")",
        metric_name := metricCol,
        current_value := .float meanVal,
        previous_value := .float medianVal,
        magnitude := "moderate",
        human_impact := "Most values cluster around " ++ fmtFixed1 medianVal,
        sentiment := .neutral,
        recommended_template := "pie_breakdown",
        confidence := mkRat 3 4,
        data_points :=
          [[("mean", .float meanVal), ("median", .float medianVal), ("stdev", .float stdev)]] }

/-- The change-percentage formula of an anomaly insight: divides by the
mean with no guard, so a zero mean raises ZeroDivisionError. -/
def anomalyChangePct (meanVal val : ℚ) : Except PyErr ℚ :=
  if meanVal = 0 then .error .zeroDivisionError
  else .ok (round2 (qMul (qDiv (qSub val meanVal) meanVal) 100))

/-- The anomaly insight built for one outlier row. -/
def mkAnomalyInsight (row : Row) (metricCol : String) (groupCol : Option String)
    (meanVal val z changePct : ℚ) : DetectedInsight :=
  let groupName :=
    if strOptTruthy groupCol then pyStr (rowGetD row (groupCol.getD "") (.str "This value"))
    else "This value"
  let direction := if z > 0 then "high" else "low"
  { insight_type := .anomaly,
    summary :=
      groupName ++ " shows unusually " ++ direction ++ " " ++ metricCol ++ " at " ++
        fmtFixed1 val ++ " (average: " ++ fmtFixed1 meanVal ++ ")",
    metric_name := metricCol,
    current_value := .float val,
    previous_value := .float meanVal,
    change_percentage := some changePct,
    direction := direction,
    magnitude := "dramatic",
    human_impact := "This is " ++ fmtFixed1 (qAbs z) ++ " standard deviations from normal",
    sentiment := .warning,
    recommended_template := "hero_stat",
    confidence := mkRat 7 10,
    data_points := [row] }

/-- The anomaly scan of _detect_anomalies.  The float conversion is
wrapped in a bare except (skip the row); the change-percentage formula is
not, and its error aborts the scan before the remaining rows are visited,
as the Python exception would. -/
def anomaliesLoop (meanVal stdev : ℚ) (metricCol : String) (groupCol : Option String) :
    List Row → Except PyErr (List DetectedInsight)
  | [] => .ok []
  | row :: rest =>
    match pyFloat (rowGetD row metricCol (.int 0)) with
    | .error _ => anomaliesLoop meanVal stdev metricCol groupCol rest
    | .ok val =>
      let z := qDiv (qSub val meanVal) stdev
      if qAbs z > 2 then
        match anomalyChangePct meanVal val,
            anomaliesLoop meanVal stdev metricCol groupCol rest with
        | .error e, _ => .error e
        | .ok _, .error e => .error e
        | .ok changePct, .ok more =>
          .ok (mkAnomalyInsight row metricCol groupCol meanVal val z changePct :: more)
      else anomaliesLoop meanVal stdev metricCol groupCol rest

/-- InsightDetector._detect_anomalies. -/
def detect_anomalies (data : List Row) (metricCol : String) (groupCol : Option String) :
    Except PyErr (List DetectedInsight) :=
  let values := numericValues data metricCol
  if values.length < 5 then .ok []
  else
    let meanVal := listMean values
    let stdev := listStdev values
    if stdev = 0 then .ok []
    else (anomaliesLoop meanVal stdev metricCol groupCol data).map (fun l => l.take 3)

/-- InsightDetector.detect_from_data: the entry point of the miner.  Note
that the metric-column precondition is tested on the FIRST row only.  The
detector steps run in source order and the first exception aborts the
call, as in the Python original. -/
def detect_from_data (data : List Row) (metricColumn : String)
    (timeColumn groupColumn : Option String) : Except PyErr (List DetectedInsight) :=
  match data with
  | [] => .ok []
  | firstRow :: _ =>
    if !hasKey firstRow metricColumn then .ok []
    else
      match (match timeColumn with
             | some tc =>
               if decide (tc ≠ "") && hasKey firstRow tc then
                 detect_trends data metricColumn tc
               else .ok []
             | Option.none => .ok []) with
      | .error e => .error e
      | .ok trendInsights =>
        match (match groupColumn with
               | some gc =>
                 if decide (gc ≠ "") && hasKey firstRow gc then
                   detect_comparisons data metricColumn gc timeColumn
                 else .ok []
               | Option.none => .ok []) with
        | .error e => .error e
        | .ok comparisonInsights =>
          let distInsights :=
            if !strOptTruthy groupColumn then
              match detect_distribution data metricColumn with
              | some i => [i]
              | Option.none => []
            else []
          match detect_anomalies data metricColumn groupColumn with
          | .error e => .error e
          | .ok anomalyInsights =>
            .ok (trendInsights ++ comparisonInsights ++ distInsights ++ anomalyInsights)

/-- Python format(value, .1f) on a scalar: numbers format, strings raise
ValueError, None raises TypeError (NoneType defines no float format). -/
def pyFormatFixed1 : PyVal → Except PyErr String
  | .int n => .ok (fmtFixed1 (n : ℚ))
  | .float q => .ok (fmtFixed1 q)
  | .str _ => .error .valueError
  | .none => .error .typeError

/-- narrator.py StoryFrame. -/
structure StoryFrame where
  frame_type : String
  headline : String
  body_text : String
  key_metric : Option String
  key_metric_label : String
  visual_hint : String
  emphasis : String
deriving DecidableEq, Repr

/-- narrator.py Narrative. -/
structure Narrative where
  title : String
  subtitle : String
  domain : String
  sentiment : String
  context : StoryFrame
  change : StoryFrame
  evidence : StoryFrame
  consequence : StoryFrame
  implication : StoryFrame
  source_attribution : String
  time_period : String
  confidence : ℚ
deriving DecidableEq, Repr

/-- Narrative.get_frames: the five frames in fixed order. -/
def Narrative.frames (n : Narrative) : List StoryFrame :=
  [n.context, n.change, n.evidence, n.consequence, n.implication]

/-- The per-insight-type headline table of NarrativeGenerator.TEMPLATES. -/
structure NarHeadlines where
  context_headline : String
  change_headline : String
  evidence_headline : String
  consequence_headline : String
  implication_headline : String
deriving DecidableEq, Repr

/-- TEMPLATES.get(insight_type, TEMPLATES[GROWTH]): four explicit entries,
every other type falls back to the growth entry. -/
def narTemplates : InsightType → NarHeadlines
  | .growth =>
    ⟨"Where We Started", "The Growth Story", "The Numbers Speak",
     "What This Means", "Looking Ahead"⟩
  | .decline =>
    ⟨"The Starting Point", "The Decline", "The Evidence", "The Impact", "Path Forward"⟩
  | .comparison =>
    ⟨"Two Stories", "The Divide", "By The Numbers", "Winners & Losers", "Bridging The Gap"⟩
  | .ranking =>
    ⟨"The Field", "The Rankings", "Performance Data", "What Sets Them Apart",
     "Lessons Learned"⟩
  | _ =>
    ⟨"Where We Started", "The Growth Story", "The Numbers Speak",
     "What This Means", "Looking Ahead"⟩

/-- One entry of SENTIMENT_LANGUAGE. -/
structure SentLang where
  tone : String
  verbs : List String
  adjectives : List String
deriving DecidableEq, Repr

/-- NarrativeGenerator.SENTIMENT_LANGUAGE (total, so the NEUTRAL default
of the source .get is never needed). -/
def sentimentLanguage : Sentiment → SentLang
  | .positive =>
    ⟨"optimistic", ["achieved", "surpassed", "improved", "exceeded"],
     ["remarkable", "encouraging", "significant", "impressive"]⟩
  | .negative =>
    ⟨"concerned", ["declined", "dropped", "fell", "struggled"],
     ["concerning", "challenging", "troubling", "significant"]⟩
  | .neutral =>
    ⟨"objective", ["changed", "shifted", "moved", "adjusted"],
     ["notable", "measurable", "observable", "clear"]⟩
  | .warning =>
    ⟨"cautionary", ["signaled", "indicated", "revealed", "showed"],
     ["critical", "important", "urgent", "key"]⟩

/-- NarrativeGenerator._generate_context: guards previous_value against
None before formatting it. -/
def generate_context (insight : DetectedInsight) (tpl : NarHeadlines) (domain : String) :
    Except PyErr StoryFrame := do
  let headline := tpl.context_headline
  let metricClean := pyTitle (pyUnderscoreToSpace insight.metric_name)
  if insight.previous_value ≠ .none then do
    let pv ← pyFormatFixed1 insight.previous_value
    pure
      { frame_type := "context",
        headline := headline,
        body_text :=
          "In " ++ domain ++ ", " ++ metricClean ++ " stood at " ++ pv ++
            ". This baseline set the stage for what was to come.",
        key_metric := some pv,
        key_metric_label := "Starting " ++ metricClean,
        visual_hint := "baseline_indicator",
        emphasis := "starting_point" }
  else
    pure
      { frame_type := "context",
        headline := headline,
        body_text :=
          "Understanding " ++ metricClean ++ " in " ++ domain ++
            " requires looking at where things began.",
        key_metric := Option.none,
        key_metric_label := "",
        visual_hint := "baseline_indicator",
        emphasis := "starting_point" }

/-- NarrativeGenerator._generate_change: guards change_percentage against
None. -/
def generate_change (insight : DetectedInsight) (tpl : NarHeadlines) (lang : SentLang) :
    StoryFrame :=
  let headline := tpl.change_headline
  let metricClean := pyTitle (pyUnderscoreToSpace insight.metric_name)
  let verb := lang.verbs.getD 0 ""
  let adj := lang.adjectives.getD 0 ""
  match insight.change_percentage with
  | some cp =>
    let direction := if insight.direction = "up" then "increased" else "decreased"
    { frame_type := "change",
      headline := headline,
      body_text :=
        metricClean ++ " " ++ direction ++ " by a " ++ adj ++ " " ++ fmtFixed1 (qAbs cp) ++
          "%. This " ++ insight.magnitude ++ " shift " ++ verb ++ " expectations.",
      key_metric := some (fmtSigned1 cp ++ "%"),
      key_metric_label := "Change",
      visual_hint := "trend_arrow",
      emphasis := "change_magnitude" }
  | Option.none =>
    { frame_type := "change",
      headline := headline,
      body_text := "A " ++ adj ++ " transformation occurred in " ++ metricClean ++ ".",
      key_metric := Option.none,
      key_metric_label := "",
      visual_hint := "trend_arrow",
      emphasis := "change_magnitude" }

/-- NarrativeGenerator._generate_evidence: formats previous_value and
current_value with .1f with NO None guard, so a missing previous value
raises TypeError here. -/
def generate_evidence (insight : DetectedInsight) (tpl : NarHeadlines) :
    Except PyErr StoryFrame := do
  let headline := tpl.evidence_headline
  let metricClean := pyTitle (pyUnderscoreToSpace insight.metric_name)
  let numPoints := insight.data_points.length
  let pv ← pyFormatFixed1 insight.previous_value
  let cv ← pyFormatFixed1 insight.current_value
  let body0 :=
    "Based on " ++ natStr numPoints ++ " data points, " ++ metricClean ++ " moved from " ++
      pv ++ " to " ++ cv ++ "."
  let body := if insight.velocity ≠ "" then body0 ++ " The change was " ++ insight.velocity ++ "."
    else body0
  pure
    { frame_type := "evidence",
      headline := headline,
      body_text := body,
      key_metric := some cv,
      key_metric_label := "Current " ++ metricClean,
      visual_hint := "data_chart",
      emphasis := "data_points" }

/-- NarrativeGenerator._generate_consequence. -/
def generate_consequence (insight : DetectedInsight) (tpl : NarHeadlines) : StoryFrame :=
  let body0 :=
    if insight.human_impact ≠ "" then insight.human_impact
    else "This change has real implications for stakeholders."
  let body :=
    if insight.sentiment = .positive then body0 ++ " This represents progress worth celebrating."
    else if insight.sentiment = .negative then body0 ++ " This trend requires attention and action."
    else if insight.sentiment = .warning then
      body0 ++ " Stakeholders should take note of this development."
    else body0
  { frame_type := "consequence",
    headline := tpl.consequence_headline,
    body_text := body,
    key_metric := Option.none,
    key_metric_label := "",
    visual_hint := "impact_icon",
    emphasis := "human_element" }

/-- NarrativeGenerator._generate_implication. -/
def generate_implication (insight : DetectedInsight) (tpl : NarHeadlines) : StoryFrame :=
  let metricClean := pyTitle (pyUnderscoreToSpace insight.metric_name)
  let body :=
    if insight.direction = "up" && insight.sentiment = Sentiment.positive then
      "If current trends continue, " ++ metricClean ++
        " could reach new heights. Sustained effort will be key."
    else if insight.direction = "down" && insight.sentiment = Sentiment.negative then
      "Reversing this trend in " ++ metricClean ++
        " will require focused intervention and resources."
    else if insight.direction = "up" && insight.sentiment = Sentiment.negative then
      "Addressing the rise in " ++ metricClean ++ " should be a priority for policymakers."
    else "Monitoring " ++ metricClean ++ " will be important to understand emerging patterns."
  { frame_type := "implication",
    headline := tpl.implication_headline,
    body_text := body,
    key_metric := Option.none,
    key_metric_label := "",
    visual_hint := "forward_arrow",
    emphasis := "call_to_action" }

/-- NarrativeGenerator._generate_title. -/
def generate_title (insight : DetectedInsight) (lang : SentLang) : String :=
  let metricClean := pyTitle (pyUnderscoreToSpace insight.metric_name)
  let adj := lang.adjectives.getD 1 ""
  match insight.insight_type with
  | .growth => metricClean ++ " Shows " ++ pyTitle adj ++ " Growth"
  | .decline => metricClean ++ " Faces " ++ pyTitle adj ++ " Decline"
  | .ranking => "The " ++ metricClean ++ " Rankings"
  | .comparison => metricClean ++ ": A Tale of Two Trends"
  | _ => metricClean ++ ": Key Insights"

/-- NarrativeGenerator._generate_subtitle. -/
def generate_subtitle (insight : DetectedInsight) (domain : String) : String :=
  match insight.time_range with
  | some tr =>
    "A " ++ pyTitle domain ++ " story from " ++ pyStr tr.1 ++ " to " ++ pyStr tr.2
  | Option.none => "Insights from " ++ pyTitle domain ++ " data"

/-- NarrativeGenerator.generate: the five frames are produced in fixed
order; a formatting failure in any frame propagates as an exception. -/
def narrator_generate (insight : DetectedInsight) (domain source : String) :
    Except PyErr Narrative := do
  let tpl := narTemplates insight.insight_type
  let lang := sentimentLanguage insight.sentiment
  let contextFrame ← generate_context insight tpl domain
  let changeFrame := generate_change insight tpl lang
  let evidenceFrame ← generate_evidence insight tpl
  let consequenceFrame := generate_consequence insight tpl
  let implicationFrame := generate_implication insight tpl
  let title := generate_title insight lang
  let subtitle := generate_subtitle insight domain
  let timePeriod :=
    match insight.time_range with
    | some tr => pyStr tr.1 ++ " - " ++ pyStr tr.2
    | Option.none => "Recent Period"
  pure
    { title := title,
      subtitle := subtitle,
      domain := domain,
      sentiment := insight.sentiment.value,
      context := contextFrame,
      change := changeFrame,
      evidence := evidenceFrame,
      consequence := consequenceFrame,
      implication := implicationFrame,
      source_attribution := source,
      time_period := timePeriod,
      confidence := insight.confidence }

/-- analyzer.py QueryIntent. -/
inductive QueryIntent where
  | trend
  | comparison
  | ranking
  | current_state
  | breakdown
  | correlation
  | anomaly
  | general
deriving DecidableEq, Repr

/-- The string value of a QueryIntent member. -/
def QueryIntent.value : QueryIntent → String
  | .trend => "trend"
  | .comparison => "comparison"
  | .ranking => "ranking"
  | .current_state => "current"
  | .breakdown => "breakdown"
  | .correlation => "correlation"
  | .anomaly => "anomaly"
  | .general => "general"

/-- analyzer.py QueryAnalysis. -/
structure QueryAnalysis where
  original_query : String
  normalized_query : String
  intent : QueryIntent
  intent_confidence : ℚ
  topics : List String
  locations : List String
  time_references : List String
  metrics : List String
  domain_hint : Option String := Option.none
  requires_historical : Bool := false
  requires_comparison : Bool := false
  preferred_output : String := "data"
  search_keywords : List String := []
deriving DecidableEq, Repr

/-- The requires_historical computation of QueryAnalyzer.analyze: trend
intent alone forces it (so trend analyses with requires_historical set
are exactly the analyzer output for trend queries). -/
def requiresHistorical (intent : QueryIntent) (timeRefs : List String)
    (normalized : String) : Bool :=
  decide (intent = QueryIntent.trend) || decide (2 ≤ timeRefs.length) ||
    (["change", "trend", "over time", "growth", "decline"].any
      (fun w => strContains normalized w))

/-- One retrieved-context dict as assembled by
ReasoningEngine._retrieve_context. -/
structure CtxItem where
  content : String
  relevance : ℚ
  domain : Option String
  has_historical : Bool
deriving DecidableEq, Repr

/-- ReasoningEngine._detect_insights: at most one placeholder insight,
from the first context item with historical depth.  Note that its
previous_value keeps the dataclass default None. -/
def detect_insights_ctx (contextData : List CtxItem) (analysis : QueryAnalysis) :
    List DetectedInsight :=
  match contextData.find? (fun item => item.has_historical) with
  | some item =>
    [{ insight_type :=
         if strContains analysis.normalized_query "growth" then .growth else .stability,
       summary := "Data analysis based on query: " ++ String.mk (analysis.original_query.data.take 50),
       metric_name := analysis.topics.headD "metric",
       current_value := .int 0,
       confidence := item.relevance }]
  | Option.none => []

/-- The intent_match table of _select_primary_insight (intents outside
the table get no boost). -/
def intentMatchTypes : QueryIntent → List InsightType
  | .trend => [.growth, .decline]
  | .comparison => [.comparison, .ranking]
  | .ranking => [.ranking]
  | .current_state => [.stability]
  | _ => []

/-- The score_insight closure of _select_primary_insight. -/
def scoreInsight (analysis : QueryAnalysis) (i : DetectedInsight) : ℚ :=
  qAdd i.confidence
    (if (intentMatchTypes analysis.intent).any (fun t => t = i.insight_type) then mkRat 1 5 else 0)

/-- ReasoningEngine._select_primary_insight: stable sort by descending
score, first element wins. -/
def select_primary_insight (insights : List DetectedInsight) (analysis : QueryAnalysis) :
    Option DetectedInsight :=
  match insights with
  | [] => Option.none
  | _ =>
    (sortLe (fun a b => decide (scoreInsight analysis b ≤ scoreInsight analysis a))
      insights).head?

/-- ReasoningEngine._decide_output_mode. -/
def decide_output_mode (analysis : QueryAnalysis) (insights : List DetectedInsight)
    (forceMode : Option String) : String :=
  if strOptTruthy forceMode then forceMode.getD ""
  else
    let hasHistoricalInsight := insights.any (fun i =>
      (decide (i.insight_type = InsightType.growth) ||
        decide (i.insight_type = InsightType.decline)) && i.time_range.isSome)
    let trendIntent := decide (analysis.intent = QueryIntent.trend)
    if analysis.requires_historical && (hasHistoricalInsight || trendIntent) then "story"
    else "data"

/-- ReasoningEngine._select_template. -/
def select_template_reason (primary : Option DetectedInsight) (analysis : QueryAnalysis)
    (outputMode : String) : String :=
  if outputMode = "story" then "story_five_frame"
  else
    match primary with
    | some p => p.recommended_template
    | Option.none =>
      match analysis.intent with
      | .trend => "trend_line"
      | .comparison => "versus"
      | .ranking => "ranking_bar"
      | .current_state => "hero_stat"
      | .breakdown => "pie_breakdown"
      | _ => "hero_stat"

/-- ReasoningEngine._calculate_confidence. -/
def calculate_confidence (contextFound : Bool) (insights : List DetectedInsight)
    (primary : Option DetectedInsight) : ℚ :=
  let s1 := if contextFound then mkRat 3 10 else 0
  let s2 :=
    if insights.length ≠ 0 then
      qMul (qDiv (qSum (insights.map DetectedInsight.confidence)) (insights.length : ℚ))
        (mkRat 2 5)
    else 0
  let s3 :=
    match primary with
    | some p => qMul p.confidence (mkRat 3 10)
    | Option.none => 0
  qMin (qAdd (qAdd s1 s2) s3) 1

/-- The metrics entries of the render_data dict. -/
structure RenderMetric where
  value : PyVal
  label : String
  change : Option ℚ
deriving DecidableEq, Repr

/-- The insights entries of the render_data dict. -/
structure RenderInsightBrief where
  itype : String
  summary : String
  confidence : ℚ
deriving DecidableEq, Repr

/-- The render_data dict of _prepare_render_data. -/
structure RenderData where
  template : String
  domain : String
  title : String
  subtitle : String
  metrics : List RenderMetric
  chart_data : List Row
  insights : List RenderInsightBrief
  narrative_frames : Option (List StoryFrame) := Option.none
deriving DecidableEq, Repr

/-- Python or-chaining of an optional string with a string default
(empty strings are falsy). -/
def orStrDefault (o : Option String) (d : String) : String :=
  match o with
  | some s => if s ≠ "" then s else d
  | Option.none => d

/-- Python or-chaining of two optional strings. -/
def orStrOpt (a b : Option String) : Option String :=
  match a with
  | some s => if s ≠ "" then some s else b
  | Option.none => b

/-- ReasoningEngine._prepare_render_data. -/
def prepare_render_data (analysis : QueryAnalysis) (insights : List DetectedInsight)
    (primary : Option DetectedInsight) (narrative : Option Narrative) (template : String) :
    RenderData :=
  let base : RenderData :=
    { template := template,
      domain := orStrDefault analysis.domain_hint "general",
      title := "",
      subtitle := "",
      metrics := [],
      chart_data := [],
      insights := insights.map (fun i => ⟨i.insight_type.value, i.summary, i.confidence⟩),
      narrative_frames := Option.none }
  match narrative with
  | some n => { base with title := n.title, subtitle := n.subtitle, narrative_frames := some n.frames }
  | Option.none =>
    match primary with
    | some p =>
      { base with
        title := p.summary,
        metrics := [⟨p.current_value, p.metric_name, p.change_percentage⟩] }
    | Option.none => base

/-- reasoning.py ReasoningResult. -/
structure ReasoningResult where
  query : String
  query_analysis : QueryAnalysis
  context_found : Bool
  context_summary : String
  sources_used : List String
  insights : List DetectedInsight
  primary_insight : Option DetectedInsight
  output_mode : String
  recommended_template : String
  narrative : Option Narrative := Option.none
  render_data : RenderData
  overall_confidence : ℚ := 0
  reasoning_notes : List String := []
deriving DecidableEq, Repr

/-- Step 7 of ReasoningEngine.reason: generate the narrative only in
story mode with a primary insight present; the domain falls back through
domain_override, the analysis hint and "general", the source is the first
retrieval source. -/
def narrativeStep (outputMode : String) (primary : Option DetectedInsight)
    (analysis : QueryAnalysis) (sources : List String) (domainOverride : Option String) :
    Except PyErr (Option Narrative) :=
  if outputMode = "story" then
    match primary with
    | some p => do
      let domain := orStrDefault (orStrOpt domainOverride analysis.domain_hint) "general"
      let source := sources.headD "Data Analysis"
      let n ← narrator_generate p domain source
      pure (some n)
    | Option.none => pure Option.none
  else pure Option.none

/-- ReasoningEngine.reason from step 3 on: the query analysis and the
retrieved context (data rows and source names) are taken as inputs, since
steps 1 and 2 produce exactly one QueryAnalysis per query and one context
per retrieval outcome.  A narrator exception propagates out, every other
step is total. -/
def reasonFrom (query : String) (analysis : QueryAnalysis) (contextData : List CtxItem)
    (sources : List String) (forceMode domainOverride : Option String) :
    Except PyErr ReasoningResult := do
  let contextFound : Bool := decide (0 < contextData.length)
  let contextSummary :=
    "Found " ++ natStr contextData.length ++ " relevant data points from " ++
      natStr sources.length ++ " sources"
  let insights := detect_insights_ctx contextData analysis
  let primary := select_primary_insight insights analysis
  let outputMode := decide_output_mode analysis insights forceMode
  let template := select_template_reason primary analysis outputMode
  let narrative ← narrativeStep outputMode primary analysis sources domainOverride
  let renderData := prepare_render_data analysis insights primary narrative template
  let confidence := calculate_confidence contextFound insights primary
  let notes :=
    ["Intent detected: " ++ analysis.intent.value,
     "Domain hint: " ++ (match analysis.domain_hint with | some s => s | Option.none => "None"),
     "Requires historical: " ++ (if analysis.requires_historical then "True" else "False"),
     contextSummary,
     "Detected " ++ natStr insights.length ++ " insights"] ++
    (match primary with
     | some p => ["Primary insight: " ++ p.insight_type.value]
     | Option.none => []) ++
    ["Output mode: " ++ outputMode, "Template: " ++ template]
  pure
    { query := query,
      query_analysis := analysis,
      context_found := contextFound,
      context_summary := contextSummary,
      sources_used := sources,
      insights := insights,
      primary_insight := primary,
      output_mode := outputMode,
      recommended_template := template,
      narrative := narrative,
      render_data := renderData,
      overall_confidence := confidence,
      reasoning_notes := notes }

/-! ### Concrete inputs used by the claim theorems -/

/-- The literacy scenario rows of the spec (66.5 and 89.5 written as
exact rationals). -/
def rows6 : List Row :=
  [[("year", .int 2015), ("literacy", .float (mkRat 133 2))],
   [("year", .int 2019), ("literacy", .float 78)],
   [("year", .int 2023), ("literacy", .float (mkRat 179 2))]]

/-- Rows whose metric column is missing from the first row but present in
the later ones. -/
def rows4 : List Row :=
  [[("x", .int 1)], [("m", .int 10), ("t", .int 1)], [("m", .int 20), ("t", .int 2)]]

/-- Nine metric values with one clear outlier (sample standard deviation
exactly 3), which triggers anomaly detection. -/
def rows7 : List Row :=
  [[("m", .int 0)], [("m", .int 0)], [("m", .int 0)], [("m", .int 0)],
   [("m", .int 0)], [("m", .int 0)], [("m", .int 0)], [("m", .int 0)],
   [("m", .int 9)]]

/-- Rows whose middle metric value is a non-numeric string: the velocity
block of trend detection converts it without a guard. -/
def rows8a : List Row :=
  [[("t", .int 1), ("m", .int 1)], [("t", .int 2), ("m", .str "x")], [("t", .int 3), ("m", .int 2)]]

/-- Nine metric values with mean exactly zero and an outlier beyond two
standard deviations: the anomaly change-percentage formula divides by the
mean. -/
def rows8b : List Row :=
  [[("m", .int 8)], [("m", .int (-1))], [("m", .int (-1))], [("m", .int (-1))],
   [("m", .int (-1))], [("m", .int (-1))], [("m", .int (-1))], [("m", .int (-1))],
   [("m", .int (-1))]]

/-- The placeholder insight that ReasoningEngine._detect_insights builds
from a historical context item: previous_value keeps the dataclass
default None. -/
def insightNoPrev : DetectedInsight :=
  { insight_type := .growth,
    summary := "Data analysis based on query: how has growth changed",
    metric_name := "metric",
    current_value := .int 0,
    confidence := mkRat 1 2 }

/-- A trend analysis as produced by the analyzer for a query such as
"How has literacy changed?": trend intent forces requires_historical. -/
def analysisTrend : QueryAnalysis :=
  { original_query := "How has literacy changed?",
    normalized_query := "how has literacy changed",
    intent := .trend,
    intent_confidence := mkRat 1 2,
    topics := ["literacy"],
    locations := [],
    time_references := [],
    metrics := [],
    domain_hint := some "education",
    requires_historical :=
      requiresHistorical .trend [] "how has literacy changed",
    preferred_output := "story" }

/-- An analysis with general intent and no extracted entities. -/
def analysisGeneral : QueryAnalysis :=
  { original_query := "",
    normalized_query := "",
    intent := .general,
    intent_confidence := mkRat 1 2,
    topics := [],
    locations := [],
    time_references := [],
    metrics := [] }

/-- The full ReasoningResult that reasonFrom produces for the general
analysis with empty retrieval (checked by the C9 witness). -/
def resultGeneral : ReasoningResult :=
  { query := "",
    query_analysis := analysisGeneral,
    context_found := false,
    context_summary := "Found 0 relevant data points from 0 sources",
    sources_used := [],
    insights := [],
    primary_insight := Option.none,
    output_mode := "data",
    recommended_template := "hero_stat",
    narrative := Option.none,
    render_data :=
      { template := "hero_stat",
        domain := "general",
        title := "",
        subtitle := "",
        metrics := [],
        chart_data := [],
        insights := [],
        narrative_frames := Option.none },
    overall_confidence := 0,
    reasoning_notes :=
      ["Intent detected: general", "Domain hint: None", "Requires historical: False",
       "Found 0 relevant data points from 0 sources", "Detected 0 insights",
       "Output mode: data", "Template: hero_stat"] }

/-! ### The arithmetic wrappers agree with the Mathlib operations -/

theorem mkRat_eq_div' (n : ℤ) (d : ℕ) : mkRat n d = (n : ℚ) / (d : ℚ) := by
  rw [Rat.mkRat_eq_divInt, Rat.divInt_eq_div]
  push_cast
  rfl

theorem qAdd_eq (a b : ℚ) : qAdd a b = a + b := by
  have ha : ((a.den : ℚ)) ≠ 0 := Nat.cast_ne_zero.mpr a.den_ne_zero
  have hb : ((b.den : ℚ)) ≠ 0 := Nat.cast_ne_zero.mpr b.den_ne_zero
  rw [qAdd, mkRat_eq_div']
  push_cast
  conv_rhs => rw [← Rat.num_div_den a, ← Rat.num_div_den b]
  rw [div_add_div _ _ ha hb]
  ring_nf

theorem qNeg_eq (a : ℚ) : qNeg a = -a := by
  rw [qNeg, mkRat_eq_div']
  push_cast
  conv_rhs => rw [← Rat.num_div_den a]
  rw [neg_div]

theorem qSub_eq (a b : ℚ) : qSub a b = a - b := by
  rw [qSub, qAdd_eq, qNeg_eq, ← sub_eq_add_neg]

theorem qMul_eq (a b : ℚ) : qMul a b = a * b := by
  rw [qMul, mkRat_eq_div']
  push_cast
  conv_rhs => rw [← Rat.num_div_den a, ← Rat.num_div_den b]
  rw [div_mul_div_comm]

theorem qInv_eq (a : ℚ) : qInv a = a⁻¹ := by
  rw [qInv, Rat.inv_def']
  by_cases h : 0 ≤ a.num
  · rw [if_pos h, Rat.mkRat_eq_divInt, Int.natAbs_of_nonneg h]
  · rw [if_neg h, Rat.mkRat_eq_divInt]
    push_neg at h
    rw [Int.ofNat_natAbs_of_nonpos (le_of_lt h)]
    rw [Rat.neg_divInt_neg]

theorem qDiv_eq (a b : ℚ) : qDiv a b = a / b := by
  rw [qDiv, qMul_eq, qInv_eq, div_eq_mul_inv]

theorem qAbs_eq (a : ℚ) : qAbs a = |a| := by
  rw [qAbs]
  by_cases h : a < 0
  · rw [if_pos h, qNeg_eq, abs_of_neg h]
  · rw [if_neg h, abs_of_nonneg (not_lt.mp h)]

theorem qMin_eq (a b : ℚ) : qMin a b = min a b := by
  rw [qMin, min_def]

theorem qMax_eq (a b : ℚ) : qMax a b = max a b := by
  rw [qMax, max_def]

theorem qPow_eq (a : ℚ) (n : ℕ) : qPow a n = a ^ n := by
  induction n with
  | zero => rw [qPow, pow_zero]
  | succ k ih => rw [qPow, qMul_eq, ih, pow_succ]

theorem qSum_eq (l : List ℚ) : qSum l = l.sum := by
  rw [qSum]
  induction l with
  | nil => rfl
  | cons a t ih => rw [List.foldr_cons, ih, List.sum_cons, qAdd_eq]

theorem ratFloor_eq (a : ℚ) : a.floor = ⌊a⌋ := by
  rw [Rat.floor_def', Rat.floor_def]

theorem qRound_eq (a : ℚ) : qRound a = round a := by
  rw [qRound, qAdd_eq, ratFloor_eq, round_eq]
  norm_num [mkRat_eq_div']

/-! ### Helper lemmas about the stable sort and row access -/

theorem mem_insertLe {α : Type} (le : α → α → Bool) (x a : α) (l : List α) :
    a ∈ insertLe le x l ↔ a = x ∨ a ∈ l := by
  induction l with
  | nil => simp [insertLe]
  | cons b t ih =>
    by_cases h : le x b = true
    · simp [insertLe, h]
    · simp only [insertLe, h]
      simp only [Bool.false_eq_true, if_false, List.mem_cons, ih]
      tauto

theorem mem_sortLe {α : Type} (le : α → α → Bool) (a : α) (l : List α) :
    a ∈ sortLe le l ↔ a ∈ l := by
  induction l with
  | nil => simp [sortLe]
  | cons b t ih => simp [sortLe, mem_insertLe, ih]

theorem length_insertLe {α : Type} (le : α → α → Bool) (x : α) (l : List α) :
    (insertLe le x l).length = l.length + 1 := by
  induction l with
  | nil => simp [insertLe]
  | cons b t ih =>
    by_cases h : le x b = true <;> simp [insertLe, h, ih]

theorem length_sortLe {α : Type} (le : α → α → Bool) (l : List α) :
    (sortLe le l).length = l.length := by
  induction l with
  | nil => rfl
  | cons b t ih => simp [sortLe, length_insertLe, ih]

theorem mem_pySortByTime (tc : String) (data : List Row) (r : Row) :
    r ∈ pySortByTime tc data ↔ r ∈ data := by
  unfold pySortByTime
  split
  · exact mem_sortLe _ r data
  · split
    · exact mem_sortLe _ r data
    · exact Iff.rfl

theorem length_pySortByTime (tc : String) (data : List Row) :
    (pySortByTime tc data).length = data.length := by
  unfold pySortByTime
  split
  · exact length_sortLe _ data
  · split
    · exact length_sortLe _ data
    · rfl

theorem headD_mem {α : Type} (l : List α) (d : α) (h : l ≠ []) : l.headD d ∈ l := by
  cases l with
  | nil => exact absurd rfl h
  | cons a t => simp [List.headD]

theorem getLastD_mem {α : Type} : ∀ (l : List α) (d : α), l ≠ [] → l.getLastD d ∈ l
  | [], _, h => absurd rfl h
  | [a], _, _ => by simp
  | a :: b :: t, d, _ => by
    have ih := getLastD_mem (b :: t) a (by simp)
    rw [List.getLastD_cons]
    exact List.mem_cons_of_mem _ ih

theorem getD_mem {α : Type} (l : List α) (i : ℕ) (d : α) (h : i < l.length) :
    l.getD i d ∈ l := by
  rw [List.getD_eq_getElem l d h]
  exact List.getElem_mem h

theorem head?_mem {α : Type} (l : List α) (a : α) (h : l.head? = some a) : a ∈ l :=
  List.mem_of_mem_head? (by rw [h]; rfl)

/-- pyFloatD names the value of a successful conversion. -/
theorem pyFloatD_eq (v : PyVal) (q : ℚ) (h : pyFloat v = .ok q) : pyFloatD v = q := by
  unfold pyFloatD
  rw [h]

/-- A successful Except computation is ok at its pyFloatD value. -/
theorem isOk_pyFloat (v : PyVal) (h : (pyFloat v).isOk = true) :
    pyFloat v = .ok (pyFloatD v) := by
  unfold pyFloatD
  cases hv : pyFloat v with
  | ok q => rfl
  | error e => rw [hv] at h; exact Bool.noConfusion h

/-- Replacing the missing-key fallback 0 by a float keeps the conversion
successful. -/
theorem isOk_rowGetD_float (row : Row) (m : String) (q : ℚ)
    (h : (pyFloat (rowGetD row m (.int 0))).isOk = true) :
    (pyFloat (rowGetD row m (.float q))).isOk = true := by
  unfold rowGetD at h ⊢
  cases hrg : rowGet row m with
  | some v =>
    rw [hrg] at h
    simp only [Option.getD_some] at h ⊢
    exact h
  | none =>
    rw [hrg] at h
    rfl

/-! ### Reduction lemmas for the Except monad -/

theorem exc_bind_ok {ε α β : Type} (a : α) (f : α → Except ε β) :
    (Except.ok a >>= f) = f a := rfl

theorem exc_bind_error {ε α β : Type} (e : ε) (f : α → Except ε β) :
    ((Except.error e : Except ε α) >>= f) = Except.error e := rfl

theorem exc_pure {ε α : Type} (a : α) : (pure a : Except ε α) = Except.ok a := rfl

theorem exc_map_ok {ε α β : Type} (f : α → β) (a : α) :
    (Except.ok a : Except ε α).map f = Except.ok (f a) := rfl

theorem exc_map_error {ε α β : Type} (f : α → β) (e : ε) :
    (Except.error e : Except ε α).map f = Except.error e := rfl

/-- The primary insight returned by the selector is one of the insights. -/
theorem select_primary_mem (ins : List DetectedInsight) (a : QueryAnalysis)
    (p : DetectedInsight) (h : select_primary_insight ins a = some p) : p ∈ ins := by
  cases ins with
  | nil =>
    simp only [select_primary_insight] at h
    exact Option.noConfusion h
  | cons b t =>
    simp only [select_primary_insight] at h
    exact (mem_sortLe _ _ _).mp (head?_mem _ _ h)

/-! ### Claim theorems -/

/-- C1: the claim says the narrative builder is total and never raises.
The code is not: _generate_evidence formats previous_value with .1f with
no None guard, so the very insight that the orchestrator itself builds
from a historical context item (previous_value = None) makes generate
raise TypeError instead of degrading to generic phrasing. -/
theorem C1_narrator_crash :
    detect_insights_ctx [⟨"ctx", mkRat 1 2, Option.none, true⟩]
        { analysisGeneral with
          original_query := "how has growth changed",
          normalized_query := "how has growth changed" } = [insightNoPrev] ∧
    narrator_generate insightNoPrev "general" "Data Analysis" = .error .typeError := by
  decide

/-- C2: a supplied (non-empty) forced mode is returned unconditionally;
without one the mode is story exactly when requires_historical holds and
the intent is trend or some growth or decline insight has a time range. -/
theorem C2_output_mode (a : QueryAnalysis) (ins : List DetectedInsight) :
    (∀ m : String, m ≠ "" → decide_output_mode a ins (some m) = m) ∧
    decide_output_mode a ins Option.none =
      (if a.requires_historical = true ∧
          (a.intent = QueryIntent.trend ∨
            ∃ i ∈ ins,
              (i.insight_type = InsightType.growth ∨ i.insight_type = InsightType.decline) ∧
                i.time_range ≠ Option.none)
       then "story" else "data") := by
  constructor
  · intro m hm
    simp [decide_output_mode, strOptTruthy, hm]
  · rw [decide_output_mode]
    simp only [strOptTruthy, Bool.false_eq_true, if_false, List.any_eq_true,
      Bool.and_eq_true, Bool.or_eq_true, decide_eq_true_eq, Option.isSome_iff_ne_none]
    refine if_congr ?_ rfl rfl
    constructor
    · rintro ⟨h1, h2⟩
      refine ⟨h1, ?_⟩
      rcases h2 with ⟨i, hi, hty, htr⟩ | htrend
      · exact Or.inr ⟨i, hi, hty, htr⟩
      · exact Or.inl htrend
    · rintro ⟨h1, h2⟩
      refine ⟨h1, ?_⟩
      rcases h2 with htrend | ⟨i, hi, hty, htr⟩
      · exact Or.inr htrend
      · exact Or.inl ⟨i, hi, hty, htr⟩

/-- C2 witness: both actual modes are honored on a concrete input. -/
theorem C2_output_mode_witness :
    decide_output_mode analysisGeneral [] (some "data") = "data" ∧
    decide_output_mode analysisGeneral [] (some "story") = "story" :=
  ⟨(C2_output_mode analysisGeneral []).1 "data" (by decide),
   (C2_output_mode analysisGeneral []).1 "story" (by decide)⟩

/-- C4: the claim says the metric-column precondition is existential over
rows.  It is not: detect_from_data tests the first row only, so rows4
(metric in the second and third rows, where a growth trend is detectable)
yields the empty list while dropping the uninformative first row yields a
non-empty one. -/
theorem C4_counterexample :
    (∃ row ∈ rows4, hasKey row "m" = true) ∧
    detect_from_data rows4 "m" (some "t") Option.none = .ok [] ∧
    detect_from_data rows4.tail "m" (some "t") Option.none ≠ .ok [] := by
  decide

/-- C4 amended: detect returns the empty list whenever the metric column
is absent from the FIRST row (hence in particular whenever it exists in
no row); the detection paths run only when the first row has it. -/
theorem C4_first_row_guard (data : List Row) (m : String) (tc gc : Option String) :
    ((∀ row ∈ data, hasKey row m = false) → detect_from_data data m tc gc = .ok []) ∧
    (∀ r rest, data = r :: rest → hasKey r m = false →
      detect_from_data data m tc gc = .ok []) := by
  constructor
  · intro hall
    cases data with
    | nil => rfl
    | cons r rest =>
      have hk := hall r (by simp)
      simp [detect_from_data, hk, exc_pure]
  · intro r rest hdata hkey
    subst hdata
    simp [detect_from_data, hkey, exc_pure]

/-- C4 witness: the guard theorem applied to the concrete rows4. -/
theorem C4_first_row_guard_witness :
    detect_from_data rows4 "m" (some "t") Option.none = .ok [] :=
  (C4_first_row_guard rows4 "m" (some "t") Option.none).2
    [("x", .int 1)]
    [[("m", .int 10), ("t", .int 1)], [("m", .int 20), ("t", .int 2)]]
    (by decide) (by decide)

/-- C6: the claim says the literacy scenario yields exactly one insight.
The detector also runs distribution detection (three numeric values) and
returns two insights. -/
theorem C6_counterexample :
    (detect_from_data rows6 "literacy" (some "year") Option.none).map List.length = .ok 2 ∧
    ¬ (detect_from_data rows6 "literacy" (some "year") Option.none).map List.length = .ok 1 := by
  decide

/-- C6 amended: the literacy scenario yields exactly two insights; the
first is the growth trend with direction up, change_percentage 34.59 and
magnitude dramatic, the second is a distribution insight. -/
theorem C6_two_insights :
    (detect_from_data rows6 "literacy" (some "year") Option.none).map
        (List.map (fun i => (i.insight_type, i.direction, i.change_percentage, i.magnitude))) =
      .ok [(InsightType.growth, "up", some (mkRat 3459 100), "dramatic"),
           (InsightType.distribution, "stable", Option.none, "moderate")] := by
  decide

/-- C7 counterexample: anomaly insights carry direction high (or low),
outside the claimed set {up, down, stable, comparison}. -/
theorem C7_counterexample :
    (detect_from_data rows7 "m" Option.none Option.none).map (List.map (fun i => i.direction)) =
      .ok ["stable", "high"] ∧
    "high" ∉ (["up", "down", "stable", "comparison"] : List String) := by
  decide

/-- C8: the claim says detect never raises.  It does, in two places the
spec itself flags as fail-soft: the unguarded float conversion of the
middle row inside the trend velocity block (ValueError), and the division
by a zero mean in the anomaly change-percentage formula
(ZeroDivisionError). -/
theorem C8_detector_raises :
    detect_from_data rows8a "m" (some "t") Option.none = .error .valueError ∧
    detect_from_data rows8b "m" Option.none Option.none = .error .zeroDivisionError := by
  decide

/-- C10 counterexample: a trend query (requires_historical is forced by
the analyzer for trend intent) with empty retrieval yields output_mode
story, not data, though context_found is false and confidence is 0. -/
theorem C10_counterexample :
    requiresHistorical .trend [] "how has literacy changed" = true ∧
    (reasonFrom "How has literacy changed?" analysisTrend [] [] Option.none
        Option.none).map (fun r => (r.context_found, r.overall_confidence, r.output_mode)) =
      .ok (false, 0, "story") := by
  decide

/-- A successful narrative step yields a narrative exactly in story mode
with a primary insight. -/
theorem narrativeStep_isSome (mo : String) (pr : Option DetectedInsight)
    (a : QueryAnalysis) (src : List String) (dov : Option String) (nv : Option Narrative)
    (h : narrativeStep mo pr a src dov = .ok nv) :
    nv.isSome = true ↔ (mo = "story" ∧ pr.isSome = true) := by
  rw [narrativeStep.eq_def] at h
  by_cases hst : mo = "story"
  · rw [if_pos hst] at h
    cases pr with
    | none =>
      rw [exc_pure] at h
      cases h
      simp
    | some p =>
      dsimp only at h
      cases hg : narrator_generate p
          (orStrDefault (orStrOpt dov a.domain_hint) "general") (src.headD "Data Analysis") with
      | error e =>
        rw [hg, exc_bind_error] at h
        exact absurd h (by simp)
      | ok n =>
        rw [hg, exc_bind_ok, exc_pure] at h
        cases h
        simp [hst]
  · rw [if_neg hst] at h
    rw [exc_pure] at h
    cases h
    simp [hst]

/-- C9: every ReasoningResult that reason() produces satisfies both
invariants: a present primary insight is an element of the insights list,
and the narrative is present exactly when output_mode is story and a
primary insight is present. -/
theorem C9_result_invariants (q : String) (a : QueryAnalysis) (ctx : List CtxItem)
    (src : List String) (fm dov : Option String) (r : ReasoningResult)
    (h : reasonFrom q a ctx src fm dov = .ok r) :
    (∀ p, r.primary_insight = some p → p ∈ r.insights) ∧
    (r.narrative.isSome = true ↔
      (r.output_mode = "story" ∧ r.primary_insight.isSome = true)) := by
  rw [reasonFrom] at h
  cases hn : narrativeStep (decide_output_mode a (detect_insights_ctx ctx a) fm)
      (select_primary_insight (detect_insights_ctx ctx a) a) a src dov with
  | error e =>
    rw [hn, exc_bind_error] at h
    exact absurd h (by simp)
  | ok nv =>
    rw [hn, exc_bind_ok, exc_pure] at h
    cases h
    constructor
    · intro p hp
      exact select_primary_mem _ _ _ hp
    · exact narrativeStep_isSome _ _ _ _ _ _ hn

/-- C9 witness: the invariants hold on the concrete result of the general
query with empty retrieval. -/
theorem C9_result_invariants_witness :
    (∀ p, resultGeneral.primary_insight = some p → p ∈ resultGeneral.insights) ∧
    (resultGeneral.narrative.isSome = true ↔
      (resultGeneral.output_mode = "story" ∧ resultGeneral.primary_insight.isSome = true)) :=
  C9_result_invariants "" analysisGeneral [] [] Option.none Option.none resultGeneral
    (by decide)

/-- C10 amended: with empty retrieval and no forced mode the orchestrator
still produces a result with context_found false and confidence 0, but
output_mode is data only when the analysis is not a historical trend
query; a trend intent with requires_historical yields story. -/
theorem C10_empty_retrieval (q : String) (a : QueryAnalysis) (dov : Option String) :
    (reasonFrom q a [] [] Option.none dov).map
        (fun r => (r.context_found, r.overall_confidence, r.output_mode)) =
      .ok (false, 0,
        if a.requires_historical = true ∧ a.intent = QueryIntent.trend then "story"
        else "data") := by
  have hns : ∀ mo, narrativeStep mo Option.none a [] dov = .ok Option.none := by
    intro mo
    rw [narrativeStep]
    split <;> rfl
  have hmode : decide_output_mode a [] Option.none =
      (if a.requires_historical = true ∧ a.intent = QueryIntent.trend then "story"
       else "data") := by
    rw [decide_output_mode]
    simp only [strOptTruthy, Bool.false_eq_true, if_false, List.any_nil, Bool.false_or,
      Bool.and_eq_true, decide_eq_true_eq]
  rw [reasonFrom]
  have hins : detect_insights_ctx [] a = [] := rfl
  have hpr : select_primary_insight [] a = Option.none := rfl
  rw [hins, hpr, hns]
  simp only [exc_bind_ok, exc_pure, exc_map_ok]
  refine congrArg Except.ok ?_
  rw [← hmode]
  rfl

/-- C3: the overall confidence equals 0.3 (if context was found) plus 0.4
times the mean insight confidence (0 with no insights) plus 0.3 times the
primary confidence (0 with no primary), capped at 1.0; with confidences
in [0,1] it lies in [0,1] and never exceeds the uncapped weighted
combination. -/
theorem C3_overall_confidence (ctx : Bool) (ins : List DetectedInsight)
    (p : Option DetectedInsight)
    (hins : ∀ i ∈ ins, 0 ≤ i.confidence ∧ i.confidence ≤ 1)
    (hp : ∀ i, p = some i → 0 ≤ i.confidence ∧ i.confidence ≤ 1) :
    calculate_confidence ctx ins p =
      min ((if ctx = true then (0.3 : ℚ) else 0) +
          (if ins = [] then 0
           else ((ins.map DetectedInsight.confidence).sum / (ins.length : ℚ)) * (0.4 : ℚ)) +
          p.elim 0 (fun i => i.confidence * (0.3 : ℚ))) 1 ∧
    0 ≤ calculate_confidence ctx ins p ∧
    calculate_confidence ctx ins p ≤ 1 ∧
    calculate_confidence ctx ins p ≤
      (if ctx = true then (0.3 : ℚ) else 0) +
        (if ins = [] then 0
         else ((ins.map DetectedInsight.confidence).sum / (ins.length : ℚ)) * (0.4 : ℚ)) +
        p.elim 0 (fun i => i.confidence * (0.3 : ℚ)) := by
  have h310 : (mkRat 3 10 : ℚ) = (0.3 : ℚ) := by rw [mkRat_eq_div']; norm_num
  have h25 : (mkRat 2 5 : ℚ) = (0.4 : ℚ) := by rw [mkRat_eq_div']; norm_num
  have hs1 : (if ctx = true then (mkRat 3 10 : ℚ) else 0) =
      (if ctx = true then (0.3 : ℚ) else 0) := by
    cases ctx <;> simp [h310]
  have hs2 :
      (if ins.length ≠ 0 then
          qMul (qDiv (qSum (ins.map DetectedInsight.confidence)) ((ins.length : ℕ) : ℚ))
            (mkRat 2 5)
        else 0) =
      (if ins = [] then 0
       else ((ins.map DetectedInsight.confidence).sum / (ins.length : ℚ)) * (0.4 : ℚ)) := by
    by_cases hnil : ins = []
    · simp [hnil]
    · have hlen : ins.length ≠ 0 := by simpa [List.length_eq_zero] using hnil
      rw [if_pos hlen, if_neg hnil, qMul_eq, qDiv_eq, qSum_eq, h25]
  have hmain : calculate_confidence ctx ins p =
      min ((if ctx = true then (0.3 : ℚ) else 0) +
          (if ins = [] then 0
           else ((ins.map DetectedInsight.confidence).sum / (ins.length : ℚ)) * (0.4 : ℚ)) +
          p.elim 0 (fun i => i.confidence * (0.3 : ℚ))) 1 := by
    cases p with
    | none =>
      simp only [calculate_confidence, Option.elim]
      rw [qMin_eq, qAdd_eq, qAdd_eq, hs1, hs2]
    | some i =>
      simp only [calculate_confidence, Option.elim]
      rw [qMin_eq, qAdd_eq, qAdd_eq, hs1, hs2, qMul_eq, h310]
  have ht1 : (0 : ℚ) ≤ (if ctx = true then (0.3 : ℚ) else 0) := by
    split <;> norm_num
  have ht2 : (0 : ℚ) ≤
      (if ins = [] then 0
       else ((ins.map DetectedInsight.confidence).sum / (ins.length : ℚ)) * (0.4 : ℚ)) := by
    split
    · exact le_refl 0
    · apply mul_nonneg
      · apply div_nonneg
        · apply List.sum_nonneg
          intro x hx
          obtain ⟨i, hi, rfl⟩ := List.mem_map.mp hx
          exact (hins i hi).1
        · exact Nat.cast_nonneg _
      · norm_num
  have ht3 : (0 : ℚ) ≤ p.elim 0 (fun i => i.confidence * (0.3 : ℚ)) := by
    cases p with
    | none => exact le_refl 0
    | some i => exact mul_nonneg (hp i rfl).1 (by norm_num)
  refine ⟨hmain, ?_, ?_, ?_⟩
  · rw [hmain]
    exact le_min (add_nonneg (add_nonneg ht1 ht2) ht3) (by norm_num)
  · rw [hmain]
    exact min_le_right _ _
  · rw [hmain]
    exact min_le_left _ _

/-- C3 witness: the confidence bounds evaluated with context found, no
insights and no primary insight. -/
theorem C3_overall_confidence_witness :
    calculate_confidence true [] Option.none =
      min ((if true = true then (0.3 : ℚ) else 0) +
          (if ([] : List DetectedInsight) = [] then 0
           else ((([] : List DetectedInsight).map DetectedInsight.confidence).sum /
              (([] : List DetectedInsight).length : ℚ)) * (0.4 : ℚ)) +
          (Option.none : Option DetectedInsight).elim 0
            (fun i => i.confidence * (0.3 : ℚ))) 1 ∧
    0 ≤ calculate_confidence true [] Option.none ∧
    calculate_confidence true [] Option.none ≤ 1 ∧
    calculate_confidence true [] Option.none ≤
      (if true = true then (0.3 : ℚ) else 0) +
        (if ([] : List DetectedInsight) = [] then 0
         else ((([] : List DetectedInsight).map DetectedInsight.confidence).sum /
            (([] : List DetectedInsight).length : ℚ)) * (0.4 : ℚ)) +
        (Option.none : Option DetectedInsight).elim 0
          (fun i => i.confidence * (0.3 : ℚ)) :=
  C3_overall_confidence true [] Option.none (by simp) (by simp)

/-- Velocities produced by the trend velocity block. -/
theorem trendVelocity_mem (s : List Row) (m : String) (fv lv : ℚ) (v : String)
    (h : trendVelocity s m fv lv = .ok v) :
    v ∈ (["gradual", "steady", "accelerating", "decelerating"] : List String) := by
  rw [trendVelocity] at h
  split at h
  · dsimp only at h
    cases hm : pyFloat (rowGetD (s.getD (s.length / 2) []) m (.float fv)) with
    | error e =>
      rw [hm, exc_bind_error] at h
      exact absurd h (by simp)
    | ok mv =>
      rw [hm, exc_bind_ok, exc_pure] at h
      injection h with h2
      subst h2
      split_ifs <;> simp
  · rw [exc_pure] at h
    injection h with h2
    subst h2
    simp

/-- Field enumerations of a trend insight. -/
theorem mkTrendInsight_enums (s : List Row) (m tc : String) (fv lv : ℚ) (vel : String)
    (hvel : vel ∈ (["gradual", "steady", "accelerating", "decelerating"] : List String)) :
    (mkTrendInsight s m tc fv lv vel).direction ∈
        (["up", "down", "stable", "comparison", "high", "low"] : List String) ∧
      (mkTrendInsight s m tc fv lv vel).magnitude ∈
        (["small", "moderate", "large", "dramatic"] : List String) ∧
      (mkTrendInsight s m tc fv lv vel).velocity ∈
        (["gradual", "steady", "accelerating", "decelerating"] : List String) := by
  dsimp only [mkTrendInsight]
  refine ⟨?_, ?_, hvel⟩ <;> split_ifs <;> simp

/-- Field enumerations of trend detection results. -/
theorem detect_trends_enums (data : List Row) (m tc : String) (res : List DetectedInsight)
    (h : detect_trends data m tc = .ok res) :
    ∀ i ∈ res,
      i.direction ∈ (["up", "down", "stable", "comparison", "high", "low"] : List String) ∧
      i.magnitude ∈ (["small", "moderate", "large", "dramatic"] : List String) ∧
      i.velocity ∈ (["gradual", "steady", "accelerating", "decelerating"] : List String) := by
  rw [detect_trends] at h
  split at h
  · injection h with h2
    subst h2
    simp
  · cases hf : pyFloat (rowGetD ((pySortByTime tc data).headD []) m (.int 0)) with
    | error e =>
      rw [hf] at h
      dsimp only at h
      injection h with h2
      subst h2
      simp
    | ok fv =>
      rw [hf] at h
      cases hl : pyFloat (rowGetD ((pySortByTime tc data).getLastD []) m (.int 0)) with
      | error e =>
        rw [hl] at h
        dsimp only at h
        injection h with h2
        subst h2
        simp
      | ok lv =>
        rw [hl] at h
        dsimp only at h
        split at h
        · injection h with h2
          subst h2
          simp
        · cases hv : trendVelocity (pySortByTime tc data) m fv lv with
          | error e =>
            rw [hv, exc_map_error] at h
            exact absurd h (by simp)
          | ok vel =>
            rw [hv, exc_map_ok] at h
            injection h with h2
            subst h2
            intro i hi
            rw [List.mem_singleton] at hi
            subst hi
            exact mkTrendInsight_enums _ _ _ _ _ _ (trendVelocity_mem _ _ _ _ _ hv)

/-- Field enumerations of comparison detection results. -/
theorem detect_comparisons_enums (data : List Row) (m gc : String) (tc : Option String)
    (res : List DetectedInsight) (h : detect_comparisons data m gc tc = .ok res) :
    ∀ i ∈ res,
      i.direction ∈ (["up", "down", "stable", "comparison", "high", "low"] : List String) ∧
      i.magnitude ∈ (["small", "moderate", "large", "dramatic"] : List String) ∧
      i.velocity ∈ (["gradual", "steady", "accelerating", "decelerating"] : List String) := by
  rw [detect_comparisons] at h
  cases hg : groupValuesLoop m gc tc data [] with
  | error e =>
    rw [hg, exc_bind_error] at h
    exact absurd h (by simp)
  | ok gv =>
    rw [hg, exc_bind_ok] at h
    split at h
    · rw [exc_pure] at h
      injection h with h2
      subst h2
      simp
    · dsimp only at h
      cases hsg : sortLe (fun a b => decide (b.2 ≤ a.2)) (gv.map (fun p => (p.1, p.2.1))) with
      | nil =>
        rw [hsg] at h
        dsimp only at h
        injection h with h2
        subst h2
        simp
      | cons top rest =>
        rw [hsg] at h
        dsimp only at h
        injection h with h2
        subst h2
        intro i hi
        rw [List.mem_singleton] at hi
        subst hi
        refine ⟨by simp, ?_, by simp⟩
        split_ifs <;> simp

/-- Field enumerations of the distribution insight. -/
theorem detect_distribution_enums (data : List Row) (m : String) (i : DetectedInsight)
    (h : detect_distribution data m = some i) :
    i.direction ∈ (["up", "down", "stable", "comparison", "high", "low"] : List String) ∧
      i.magnitude ∈ (["small", "moderate", "large", "dramatic"] : List String) ∧
      i.velocity ∈ (["gradual", "steady", "accelerating", "decelerating"] : List String) := by
  rw [detect_distribution] at h
  split at h
  · exact absurd h (by simp)
  · injection h with h2
    subst h2
    refine ⟨by simp, by simp, by simp⟩

/-- Field enumerations of the anomaly insight record. -/
theorem mkAnomalyInsight_enums (row : Row) (m : String) (gc : Option String)
    (mv val z cp : ℚ) :
    (mkAnomalyInsight row m gc mv val z cp).direction ∈
        (["up", "down", "stable", "comparison", "high", "low"] : List String) ∧
      (mkAnomalyInsight row m gc mv val z cp).magnitude ∈
        (["small", "moderate", "large", "dramatic"] : List String) ∧
      (mkAnomalyInsight row m gc mv val z cp).velocity ∈
        (["gradual", "steady", "accelerating", "decelerating"] : List String) := by
  dsimp only [mkAnomalyInsight]
  refine ⟨?_, by simp, by simp⟩
  split_ifs <;> simp

/-- Field enumerations along the anomaly scan. -/
theorem anomaliesLoop_enums (mv sd : ℚ) (m : String) (gc : Option String) :
    ∀ (rows : List Row) (l : List DetectedInsight),
      anomaliesLoop mv sd m gc rows = .ok l →
      ∀ i ∈ l,
        i.direction ∈ (["up", "down", "stable", "comparison", "high", "low"] : List String) ∧
        i.magnitude ∈ (["small", "moderate", "large", "dramatic"] : List String) ∧
        i.velocity ∈ (["gradual", "steady", "accelerating", "decelerating"] : List String)
  | [], l, h => by
    injection h with h2
    subst h2
    simp
  | row :: rest, l, h => by
    rw [anomaliesLoop] at h
    cases hf : pyFloat (rowGetD row m (.int 0)) with
    | error e =>
      rw [hf] at h
      exact anomaliesLoop_enums mv sd m gc rest l h
    | ok val =>
      rw [hf] at h
      dsimp only at h
      by_cases hz : qAbs (qDiv (qSub val mv) sd) > 2
      · rw [if_pos hz] at h
        cases hc : anomalyChangePct mv val with
        | error e =>
          rw [hc] at h
          dsimp only at h
          exact absurd h (by simp)
        | ok cp =>
          rw [hc] at h
          cases hr : anomaliesLoop mv sd m gc rest with
          | error e =>
            rw [hr] at h
            dsimp only at h
            exact absurd h (by simp)
          | ok more =>
            rw [hr] at h
            dsimp only at h
            injection h with h2
            subst h2
            intro i hi
            rcases List.mem_cons.mp hi with hi | hi
            · subst hi
              exact mkAnomalyInsight_enums row m gc mv val _ cp
            · exact anomaliesLoop_enums mv sd m gc rest more hr i hi
      · rw [if_neg hz] at h
        exact anomaliesLoop_enums mv sd m gc rest l h

/-- Field enumerations of anomaly detection results. -/
theorem detect_anomalies_enums (data : List Row) (m : String) (gc : Option String)
    (res : List DetectedInsight) (h : detect_anomalies data m gc = .ok res) :
    ∀ i ∈ res,
      i.direction ∈ (["up", "down", "stable", "comparison", "high", "low"] : List String) ∧
      i.magnitude ∈ (["small", "moderate", "large", "dramatic"] : List String) ∧
      i.velocity ∈ (["gradual", "steady", "accelerating", "decelerating"] : List String) := by
  rw [detect_anomalies] at h
  split at h
  · injection h with h2
    subst h2
    simp
  · dsimp only at h
    split at h
    · injection h with h2
      subst h2
      simp
    · cases hl : anomaliesLoop (listMean (numericValues data m))
          (listStdev (numericValues data m)) m gc data with
      | error e =>
        rw [hl, exc_map_error] at h
        exact absurd h (by simp)
      | ok l =>
        rw [hl, exc_map_ok] at h
        injection h with h2
        subst h2
        intro i hi
        exact anomaliesLoop_enums _ _ _ _ _ _ hl i (List.take_subset _ _ hi)

/-- Field enumerations of the optional trend step of detect_from_data. -/
theorem trend_step_enums (data : List Row) (m : String) (firstRow : Row)
    (timeColumn : Option String) (tI : List DetectedInsight)
    (h : (match timeColumn with
          | some tc =>
            if decide (tc ≠ "") && hasKey firstRow tc then detect_trends data m tc
            else .ok []
          | Option.none => .ok []) = .ok tI) :
    ∀ i ∈ tI,
      i.direction ∈ (["up", "down", "stable", "comparison", "high", "low"] : List String) ∧
      i.magnitude ∈ (["small", "moderate", "large", "dramatic"] : List String) ∧
      i.velocity ∈ (["gradual", "steady", "accelerating", "decelerating"] : List String) := by
  cases timeColumn with
  | none =>
    injection h with h2
    subst h2
    simp
  | some tc =>
    dsimp only at h
    split at h
    · exact detect_trends_enums data m tc tI h
    · injection h with h2
      subst h2
      simp

/-- Field enumerations of the optional comparison step of
detect_from_data. -/
theorem comparison_step_enums (data : List Row) (m : String) (firstRow : Row)
    (timeColumn groupColumn : Option String) (cI : List DetectedInsight)
    (h : (match groupColumn with
          | some gc =>
            if decide (gc ≠ "") && hasKey firstRow gc then
              detect_comparisons data m gc timeColumn
            else .ok []
          | Option.none => .ok []) = .ok cI) :
    ∀ i ∈ cI,
      i.direction ∈ (["up", "down", "stable", "comparison", "high", "low"] : List String) ∧
      i.magnitude ∈ (["small", "moderate", "large", "dramatic"] : List String) ∧
      i.velocity ∈ (["gradual", "steady", "accelerating", "decelerating"] : List String) := by
  cases groupColumn with
  | none =>
    injection h with h2
    subst h2
    simp
  | some gc =>
    dsimp only at h
    split at h
    · exact detect_comparisons_enums data m gc timeColumn cI h
    · injection h with h2
      subst h2
      simp

/-- Field enumerations of the optional distribution step of
detect_from_data. -/
theorem dist_step_enums (data : List Row) (m : String) (groupColumn : Option String) :
    ∀ i ∈ (if !strOptTruthy groupColumn then
        match detect_distribution data m with
        | some j => [j]
        | Option.none => []
      else ([] : List DetectedInsight)),
      i.direction ∈ (["up", "down", "stable", "comparison", "high", "low"] : List String) ∧
      i.magnitude ∈ (["small", "moderate", "large", "dramatic"] : List String) ∧
      i.velocity ∈ (["gradual", "steady", "accelerating", "decelerating"] : List String) := by
  split
  · cases hd : detect_distribution data m with
    | none => simp
    | some j =>
      intro i hi
      dsimp only at hi
      rw [List.mem_singleton] at hi
      subst hi
      exact detect_distribution_enums data m i hd
  · simp

/-- C7: every insight the miner produces has magnitude in {small,
moderate, large, dramatic} and velocity in {gradual, steady,
accelerating, decelerating} as claimed, but direction ranges over the
claimed set {up, down, stable, comparison} EXTENDED with high and low,
which anomaly insights use. -/
theorem C7_field_enumerations (data : List Row) (m : String) (tc gc : Option String)
    (res : List DetectedInsight) (h : detect_from_data data m tc gc = .ok res) :
    ∀ i ∈ res,
      i.direction ∈ (["up", "down", "stable", "comparison", "high", "low"] : List String) ∧
      i.magnitude ∈ (["small", "moderate", "large", "dramatic"] : List String) ∧
      i.velocity ∈ (["gradual", "steady", "accelerating", "decelerating"] : List String) := by
  rw [detect_from_data.eq_def] at h
  cases data with
  | nil =>
    injection h with h2
    subst h2
    simp
  | cons firstRow tail =>
    dsimp only at h
    split at h
    · injection h with h2
      subst h2
      simp
    · cases hts : (match tc with
          | some tcs =>
            if decide (tcs ≠ "") && hasKey firstRow tcs then
              detect_trends (firstRow :: tail) m tcs
            else .ok []
          | Option.none => .ok []) with
      | error e =>
        rw [hts] at h
        exact absurd h (by simp)
      | ok tI =>
        rw [hts] at h
        dsimp only at h
        cases hcs : (match gc with
            | some gcs =>
              if decide (gcs ≠ "") && hasKey firstRow gcs then
                detect_comparisons (firstRow :: tail) m gcs tc
              else .ok []
            | Option.none => .ok []) with
        | error e =>
          rw [hcs] at h
          exact absurd h (by simp)
        | ok cI =>
          rw [hcs] at h
          dsimp only at h
          cases has : detect_anomalies (firstRow :: tail) m gc with
          | error e =>
            rw [has] at h
            exact absurd h (by simp)
          | ok aI =>
            rw [has] at h
            dsimp only at h
            injection h with h2
            subst h2
            intro i hi
            rcases List.mem_append.mp hi with hi' | hiA
            · rcases List.mem_append.mp hi' with hi'' | hiD
              · rcases List.mem_append.mp hi'' with hiT | hiC
                · exact trend_step_enums (firstRow :: tail) m firstRow tc tI hts i hiT
                · exact comparison_step_enums (firstRow :: tail) m firstRow tc gc cI hcs i hiC
              · exact dist_step_enums (firstRow :: tail) m gc i hiD
            · exact detect_anomalies_enums (firstRow :: tail) m gc aI has i hiA

/-- C7 witness: the enumerations hold for the one insight the literacy
scenario produces when a group column is named but absent. -/
theorem C7_field_enumerations_witness :
    (mkTrendInsight (pySortByTime "year" rows6) "literacy" "year" (mkRat 133 2)
          (mkRat 179 2) "steady").direction ∈
        (["up", "down", "stable", "comparison", "high", "low"] : List String) ∧
      (mkTrendInsight (pySortByTime "year" rows6) "literacy" "year" (mkRat 133 2)
          (mkRat 179 2) "steady").magnitude ∈
        (["small", "moderate", "large", "dramatic"] : List String) ∧
      (mkTrendInsight (pySortByTime "year" rows6) "literacy" "year" (mkRat 133 2)
          (mkRat 179 2) "steady").velocity ∈
        (["gradual", "steady", "accelerating", "decelerating"] : List String) :=
  C7_field_enumerations rows6 "literacy" (some "year") (some "g")
    [mkTrendInsight (pySortByTime "year" rows6) "literacy" "year" (mkRat 133 2)
      (mkRat 179 2) "steady"]
    (by decide)
    (mkTrendInsight (pySortByTime "year" rows6) "literacy" "year" (mkRat 133 2)
      (mkRat 179 2) "steady")
    (by simp)

/-- C5: on at least two rows whose metric and time values are numeric or
absent (absent values default to 0), trend detection returns at most one
insight; with first and last the metric values of the time-sorted rows
and change_pct = (last - first) / first * 100, detection is skipped when
first = 0, and otherwise the insight has direction up iff change_pct > 2,
down iff change_pct < -2, the rounded change_pct, and the magnitude
bucket of |change_pct| with thresholds 5, 15 and 30. -/
theorem C5_trend_detection (data : List Row) (m tc : String)
    (hlen : 2 ≤ data.length)
    (hm : ∀ row ∈ data, (pyFloat (rowGetD row m (.int 0))).isOk = true)
    (ht : ∀ row ∈ data, (timeKey tc row).isNum = true) :
    ∃ res, detect_trends data m tc = .ok res ∧ res.length ≤ 1 ∧
      (trendFirstVal data m tc = 0 → res = []) ∧
      ∀ i ∈ res,
        (i.direction = "up" ↔ 2 < trendChangePct data m tc) ∧
        (i.direction = "down" ↔ trendChangePct data m tc < -2) ∧
        i.change_percentage = some (round2 (trendChangePct data m tc)) ∧
        i.magnitude =
          (if |trendChangePct data m tc| < 5 then "small"
           else if |trendChangePct data m tc| < 15 then "moderate"
           else if |trendChangePct data m tc| < 30 then "large"
           else "dramatic") := by
  have hsl : (pySortByTime tc data).length = data.length := length_pySortByTime tc data
  have hne : pySortByTime tc data ≠ [] := by
    intro hnil
    rw [hnil] at hsl
    simp only [List.length_nil] at hsl
    omega
  have hfirstRow : (pySortByTime tc data).headD [] ∈ data :=
    (mem_pySortByTime tc data _).mp (headD_mem _ _ hne)
  have hlastRow : (pySortByTime tc data).getLastD [] ∈ data :=
    (mem_pySortByTime tc data _).mp (getLastD_mem _ _ hne)
  have hf := isOk_pyFloat _ (hm _ hfirstRow)
  have hl := isOk_pyFloat _ (hm _ hlastRow)
  simp only [trendFirstVal, trendLastVal, trendChangePct]
  set F := pyFloatD (rowGetD ((pySortByTime tc data).headD []) m (.int 0)) with hF
  set L := pyFloatD (rowGetD ((pySortByTime tc data).getLastD []) m (.int 0)) with hL
  rw [detect_trends]
  rw [if_neg (by omega)]
  rw [hf, hl]
  dsimp only
  by_cases hF0 : F = 0
  · refine ⟨[], ?_, by simp, fun _ => rfl, by simp⟩
    rw [if_pos hF0]
  · obtain ⟨v, hv⟩ : ∃ v, trendVelocity (pySortByTime tc data) m F L = .ok v := by
      rw [trendVelocity]
      split
      · have hmidmem : (pySortByTime tc data).getD ((pySortByTime tc data).length / 2) [] ∈
            data := by
          apply (mem_pySortByTime tc data _).mp
          apply getD_mem
          omega
        have hmOk := isOk_rowGetD_float _ m F (hm _ hmidmem)
        dsimp only
        rw [isOk_pyFloat _ hmOk]
        exact ⟨_, rfl⟩
      · exact ⟨"gradual", rfl⟩
    refine ⟨[mkTrendInsight (pySortByTime tc data) m tc F L v], ?_, by simp,
      fun h0 => absurd h0 hF0, ?_⟩
    · rw [if_neg hF0, hv, exc_map_ok]
    · intro i hi
      rw [List.mem_singleton] at hi
      subst hi
      have hcp : qMul (qDiv (qSub L F) F) 100 = (L - F) / F * 100 := by
        rw [qSub_eq, qDiv_eq, qMul_eq]
      dsimp only [mkTrendInsight]
      rw [hcp, qAbs_eq]
      refine ⟨?_, ?_, rfl, rfl⟩
      · by_cases h2 : 2 < (L - F) / F * 100
        · rw [if_pos h2]
          exact ⟨fun _ => h2, fun _ => rfl⟩
        · rw [if_neg h2]
          by_cases h3 : (L - F) / F * 100 < -2
          · rw [if_pos h3]
            exact ⟨fun hs => absurd hs (by decide), fun hc => absurd hc h2⟩
          · rw [if_neg h3]
            exact ⟨fun hs => absurd hs (by decide), fun hc => absurd hc h2⟩
      · by_cases h2 : 2 < (L - F) / F * 100
        · rw [if_pos h2]
          exact ⟨fun hs => absurd hs (by decide), fun h3 => absurd h3 (by linarith)⟩
        · rw [if_neg h2]
          by_cases h3 : (L - F) / F * 100 < -2
          · rw [if_pos h3]
            exact ⟨fun _ => h3, fun _ => rfl⟩
          · rw [if_neg h3]
            exact ⟨fun hs => absurd hs (by decide), fun hc => absurd hc h3⟩

/-- C5 witness: the trend characterization evaluated on the literacy
scenario rows. -/
theorem C5_trend_detection_witness :
    (2 ≤ rows6.length) ∧
    (∀ row ∈ rows6, (pyFloat (rowGetD row "literacy" (.int 0))).isOk = true) ∧
    (∀ row ∈ rows6, (timeKey "year" row).isNum = true) ∧
    (∃ res, detect_trends rows6 "literacy" "year" = .ok res ∧ res.length ≤ 1 ∧
      (trendFirstVal rows6 "literacy" "year" = 0 → res = []) ∧
      ∀ i ∈ res,
        (i.direction = "up" ↔ 2 < trendChangePct rows6 "literacy" "year") ∧
        (i.direction = "down" ↔ trendChangePct rows6 "literacy" "year" < -2) ∧
        i.change_percentage = some (round2 (trendChangePct rows6 "literacy" "year")) ∧
        i.magnitude =
          (if |trendChangePct rows6 "literacy" "year"| < 5 then "small"
           else if |trendChangePct rows6 "literacy" "year"| < 15 then "moderate"
           else if |trendChangePct rows6 "literacy" "year"| < 30 then "large"
           else "dramatic")) :=
  ⟨by decide, by decide, by decide,
   C5_trend_detection rows6 "literacy" "year" (by decide) (by decide) (by decide)⟩

end PEngine
